import Mathlib

/-!
Verification of the topology/region decomposition engine of the xBOUT
repository (`xbout/region.py`).

The Python source is shallowly embedded below:

* `Region` mirrors the `Region` class (global index bounds plus the four
  optional neighbour references).
* `Region.getSlices`, `Region.getInnerGuardsSlices`, `Region.getOuterGuardsSlices`,
  `Region.getLowerGuardsSlices`, `Region.getUpperGuardsSlices` mirror the slice
  methods; a Python `slice(a, b)` is represented as the pair `(a, b)` of its
  half-open bounds.
* `_in_range`, `_order_vars`, `_get_topology`, `_create_connection_x`,
  `_create_connection_y` and `_create_regions_toroidal` mirror the module-level
  functions.  Python integers are unbounded, so all indices are `Int`.
  The `keep_xboundaries` / `keep_yboundaries` metadata entries are 0/1 flags in
  the source (used as truth values and as multipliers); they are embedded as
  `Bool`, with `ybndry = if keep_yboundaries then MYG else 0` standing for the
  source's `keep_yboundaries * myg`.
* The Python `regions` dict (insertion-ordered, keyed by region name strings)
  is embedded as an association list `List (String × Region)`; the two
  in-place mutations performed by `_create_connection_x` / `_create_connection_y`
  become two successive key-targeted updates of that list.
* The source function attaches the dict to the dataset
  (`_set_attrs_on_all_vars`) and also reads the `bout_*dim` coordinate names;
  both are irrelevant to the region computation and are elided: the embedding
  returns the regions dict itself.  The `raise NotImplementedError` branch for
  an unrecognized topology becomes `none`.
-/

/-- The scalar mesh metadata consumed by the engine (`ds.metadata[...]`). -/
structure Metadata where
  nx : Int
  ny : Int
  ny_inner : Int
  ixseps1 : Int
  ixseps2 : Int
  jyseps1_1 : Int
  jyseps2_1 : Int
  jyseps1_2 : Int
  jyseps2_2 : Int
  MXG : Int
  MYG : Int
  keep_xboundaries : Bool
  keep_yboundaries : Bool
deriving Repr, DecidableEq

/-- Embedding of the `Region` class of `xbout/region.py`. -/
structure Region where
  name : String
  xinner_ind : Int
  xouter_ind : Int
  ylower_ind : Int
  yupper_ind : Int
  connection_inner : Option String := none
  connection_outer : Option String := none
  connection_lower : Option String := none
  connection_upper : Option String := none
deriving Repr, DecidableEq

namespace Region

/-- Embedding of `Region.getSlices` (region.py lines 25-50), statement for
statement, including the source's mutation of `xi` (not `xo`) in the
`connection_outer` branch. -/
def getSlices (r : Region) (mxg myg : Int) : (Int × Int) × (Int × Int) :=
  let xi := r.xinner_ind
  let xi := if r.connection_inner.isSome then xi - mxg else xi
  let xo := r.xouter_ind
  let xi := if r.connection_outer.isSome then xi + mxg else xi
  let yl := r.ylower_ind
  let yl := if r.connection_lower.isSome then yl - myg else yl
  let yu := r.yupper_ind
  let yu := if r.connection_upper.isSome then yu + myg else yu
  ((xi, xo), (yl, yu))

/-- Embedding of `Region.getInnerGuardsSlices` (region.py lines 52-63). -/
def getInnerGuardsSlices (r : Region) (mxg : Int) : (Int × Int) × (Int × Int) :=
  ((r.xinner_ind - mxg, r.xinner_ind), (r.ylower_ind, r.yupper_ind))

/-- Embedding of `Region.getOuterGuardsSlices` (region.py lines 65-76). -/
def getOuterGuardsSlices (r : Region) (mxg : Int) : (Int × Int) × (Int × Int) :=
  ((r.xouter_ind, r.xouter_ind + mxg), (r.ylower_ind, r.yupper_ind))

/-- Embedding of `Region.getLowerGuardsSlices` (region.py lines 78-89). -/
def getLowerGuardsSlices (r : Region) (myg : Int) : (Int × Int) × (Int × Int) :=
  ((r.xinner_ind, r.xouter_ind), (r.ylower_ind - myg, r.ylower_ind))

/-- Embedding of `Region.getUpperGuardsSlices` (region.py lines 91-102). -/
def getUpperGuardsSlices (r : Region) (myg : Int) : (Int × Int) × (Int × Int) :=
  ((r.xinner_ind, r.xouter_ind), (r.yupper_ind, r.yupper_ind + myg))

end Region

/-- Embedding of `_in_range` (region.py lines 105-111). -/
def _in_range (val lower upper : Int) : Int :=
  if val < lower then lower
  else if val > upper then upper
  else val

/-- Embedding of `_order_vars` (region.py lines 114-118). -/
def _order_vars (lower upper : Int) : Int × Int :=
  if upper < lower then (upper, lower) else (lower, upper)

/-- Embedding of `_get_topology` (region.py lines 121-150). -/
def _get_topology (m : Metadata) : String :=
  if m.jyseps2_1 = m.jyseps1_2 then
    -- No upper X-point
    if m.jyseps1_1 ≤ 0 ∧ m.jyseps2_2 ≥ m.ny - 1 then
      if min m.ixseps1 m.ixseps2 ≥ m.nx - 1 then "core"
      else if min m.ixseps1 m.ixseps2 ≤ 0 then "sol"
      else "limiter"
    else "single-null"
  else if m.jyseps1_1 = m.jyseps2_1 ∧ m.jyseps1_2 = m.jyseps2_2 then "xpoint"
  else if m.ixseps1 = m.ixseps2 then "connected-double-null"
  else "disconnected-double-null"

/-- `regions[key].connection_outer = value` on the association-list embedding
of the regions dict. -/
def setConnOuter (regions : List (String × Region)) (key value : String) :
    List (String × Region) :=
  regions.map fun p =>
    if p.1 = key then (p.1, { p.2 with connection_outer := some value }) else p

/-- `regions[key].connection_inner = value`. -/
def setConnInner (regions : List (String × Region)) (key value : String) :
    List (String × Region) :=
  regions.map fun p =>
    if p.1 = key then (p.1, { p.2 with connection_inner := some value }) else p

/-- `regions[key].connection_upper = value`. -/
def setConnUpper (regions : List (String × Region)) (key value : String) :
    List (String × Region) :=
  regions.map fun p =>
    if p.1 = key then (p.1, { p.2 with connection_upper := some value }) else p

/-- `regions[key].connection_lower = value`. -/
def setConnLower (regions : List (String × Region)) (key value : String) :
    List (String × Region) :=
  regions.map fun p =>
    if p.1 = key then (p.1, { p.2 with connection_lower := some value }) else p

/-- Embedding of `_create_connection_x` (region.py lines 153-155): two
successive mutations of the dict. -/
def _create_connection_x (regions : List (String × Region)) (inner outer : String) :
    List (String × Region) :=
  setConnInner (setConnOuter regions inner outer) outer inner

/-- Embedding of `_create_connection_y` (region.py lines 158-160). -/
def _create_connection_y (regions : List (String × Region)) (lower upper : String) :
    List (String × Region) :=
  setConnLower (setConnUpper regions lower upper) upper lower

/-- The nine local scalars of `_create_regions_toroidal` after the
"make sure all sizes are sensible" and "adjust for boundary cells" blocks
(region.py lines 187-209). -/
structure AdjustedParams where
  ixs1 : Int
  ixs2 : Int
  nx : Int
  jys11 : Int
  jys21 : Int
  nyinner : Int
  jys12 : Int
  jys22 : Int
  ny : Int
deriving Repr, DecidableEq

/-- Embedding of the preprocessing block of `_create_regions_toroidal`
(region.py lines 171-209): clamping, ordering and boundary-cell adjustment of
the metadata scalars, in source order. -/
def boundsAdjust (m : Metadata) : AdjustedParams :=
  let ixs1 := _in_range m.ixseps1 0 m.nx
  let ixs2 := _in_range m.ixseps2 0 m.nx
  let ox := _order_vars ixs1 ixs2
  let ixs1 := ox.1
  let ixs2 := ox.2
  let jys11 := _in_range m.jyseps1_1 0 (m.ny - 1)
  let jys21 := _in_range m.jyseps2_1 0 (m.ny - 1)
  let jys12 := _in_range m.jyseps1_2 0 (m.ny - 1)
  let oy := _order_vars jys21 jys12
  let jys21 := oy.1
  let jys12 := oy.2
  let nyinner := _in_range m.ny_inner (jys21 + 1) (jys12 + 1)
  let jys22 := _in_range m.jyseps2_2 0 (m.ny - 1)
  let ybndry := if m.keep_yboundaries then m.MYG else 0
  let ixs1 := if m.keep_xboundaries then ixs1 else ixs1 - m.MXG
  let ixs2 := if m.keep_xboundaries then ixs2 else ixs2 - m.MXG
  let nx := if m.keep_xboundaries then m.nx else m.nx - 2 * m.MXG
  { ixs1 := ixs1
    ixs2 := ixs2
    nx := nx
    jys11 := jys11 + ybndry
    jys21 := jys21 + ybndry
    nyinner := nyinner + 2 * ybndry
    jys12 := jys12 + 3 * ybndry
    jys22 := jys22 + 3 * ybndry
    ny := m.ny + 4 * ybndry }

/-- The `topology == 'disconnected-double-null'` table of
`_create_regions_toroidal` (region.py lines 213-291): 18 regions plus the
x- and y-connection calls, in source order. -/
def buildDDN (a : AdjustedParams) : List (String × Region) :=
  let regions : List (String × Region) :=
    [("lower_inner_PFR",
      { name := "lower_inner_PFR", xinner_ind := 0, xouter_ind := a.ixs1,
        ylower_ind := 0, yupper_ind := a.jys11 + 1 }),
     ("lower_inner_intersep",
      { name := "lower_inner_intersep", xinner_ind := a.ixs1, xouter_ind := a.ixs2,
        ylower_ind := 0, yupper_ind := a.jys11 + 1 }),
     ("lower_inner_SOL",
      { name := "lower_inner_SOL", xinner_ind := a.ixs2, xouter_ind := a.nx,
        ylower_ind := 0, yupper_ind := a.jys11 + 1 }),
     ("inner_core",
      { name := "inner_core", xinner_ind := 0, xouter_ind := a.ixs1,
        ylower_ind := a.jys11 + 1, yupper_ind := a.jys21 + 1 }),
     ("inner_intersep",
      { name := "inner_intersep", xinner_ind := a.ixs1, xouter_ind := a.ixs2,
        ylower_ind := a.jys11 + 1, yupper_ind := a.jys21 + 1 }),
     ("inner_SOL",
      { name := "inner_SOL", xinner_ind := a.ixs2, xouter_ind := a.nx,
        ylower_ind := a.jys11 + 1, yupper_ind := a.jys21 + 1 }),
     ("upper_inner_PFR",
      { name := "upper_inner_PFR", xinner_ind := 0, xouter_ind := a.ixs1,
        ylower_ind := a.jys21 + 1, yupper_ind := a.nyinner }),
     ("upper_inner_intersep",
      { name := "upper_inner_intersep", xinner_ind := a.ixs1, xouter_ind := a.ixs2,
        ylower_ind := a.jys21 + 1, yupper_ind := a.nyinner }),
     ("upper_inner_SOL",
      { name := "upper_inner_SOL", xinner_ind := a.ixs2, xouter_ind := a.nx,
        ylower_ind := a.jys21 + 1, yupper_ind := a.nyinner }),
     ("upper_outer_PFR",
      { name := "upper_outer_PFR", xinner_ind := 0, xouter_ind := a.ixs1,
        ylower_ind := a.nyinner, yupper_ind := a.jys12 + 1 }),
     ("upper_outer_intersep",
      { name := "upper_outer_intersep", xinner_ind := a.ixs1, xouter_ind := a.ixs2,
        ylower_ind := a.nyinner, yupper_ind := a.jys12 + 1 }),
     ("upper_outer_SOL",
      { name := "upper_outer_SOL", xinner_ind := a.ixs2, xouter_ind := a.nx,
        ylower_ind := a.nyinner, yupper_ind := a.jys12 + 1 }),
     ("outer_core",
      { name := "outer_core", xinner_ind := 0, xouter_ind := a.ixs1,
        ylower_ind := a.jys12 + 1, yupper_ind := a.jys22 + 1 }),
     ("outer_intersep",
      { name := "outer_intersep", xinner_ind := a.ixs1, xouter_ind := a.ixs2,
        ylower_ind := a.jys12 + 1, yupper_ind := a.jys22 + 1 }),
     ("outer_SOL",
      { name := "outer_SOL", xinner_ind := a.ixs2, xouter_ind := a.nx,
        ylower_ind := a.jys12 + 1, yupper_ind := a.jys22 + 1 }),
     ("lower_outer_PFR",
      { name := "lower_outer_PFR", xinner_ind := 0, xouter_ind := a.ixs1,
        ylower_ind := a.jys22 + 1, yupper_ind := a.ny }),
     ("lower_outer_intersep",
      { name := "lower_outer_intersep", xinner_ind := a.ixs1, xouter_ind := a.ixs2,
        ylower_ind := a.jys22 + 1, yupper_ind := a.ny }),
     ("lower_outer_SOL",
      { name := "lower_outer_SOL", xinner_ind := a.ixs2, xouter_ind := a.nx,
        ylower_ind := a.jys22 + 1, yupper_ind := a.ny })]
  let regions := _create_connection_x regions "lower_inner_PFR" "lower_inner_intersep"
  let regions := _create_connection_x regions "lower_inner_intersep" "lower_inner_SOL"
  let regions := _create_connection_x regions "inner_core" "inner_intersep"
  let regions := _create_connection_x regions "inner_intersep" "inner_SOL"
  let regions := _create_connection_x regions "upper_inner_PFR" "upper_inner_intersep"
  let regions := _create_connection_x regions "upper_inner_intersep" "upper_inner_SOL"
  let regions := _create_connection_x regions "upper_outer_PFR" "upper_outer_intersep"
  let regions := _create_connection_x regions "upper_outer_intersep" "upper_outer_SOL"
  let regions := _create_connection_x regions "outer_core" "outer_intersep"
  let regions := _create_connection_x regions "outer_intersep" "outer_SOL"
  let regions := _create_connection_x regions "lower_outer_PFR" "lower_outer_intersep"
  let regions := _create_connection_x regions "lower_outer_intersep" "lower_outer_SOL"
  let regions := _create_connection_y regions "lower_inner_PFR" "lower_outer_PFR"
  let regions := _create_connection_y regions "lower_inner_intersep" "inner_intersep"
  let regions := _create_connection_y regions "lower_inner_SOL" "inner_SOL"
  let regions := _create_connection_y regions "inner_core" "outer_core"
  let regions := _create_connection_y regions "outer_core" "inner_core"
  let regions := _create_connection_y regions "inner_intersep" "outer_intersep"
  let regions := _create_connection_y regions "inner_SOL" "upper_inner_SOL"
  let regions := _create_connection_y regions "upper_outer_intersep" "upper_inner_intersep"
  let regions := _create_connection_y regions "upper_outer_PFR" "upper_inner_PFR"
  let regions := _create_connection_y regions "upper_outer_SOL" "outer_SOL"
  let regions := _create_connection_y regions "outer_intersep" "lower_outer_intersep"
  let regions := _create_connection_y regions "outer_SOL" "lower_outer_SOL"
  regions

/-- The `topology == 'connected-double-null'` table (region.py lines 292-342). -/
def buildCDN (a : AdjustedParams) : List (String × Region) :=
  let regions : List (String × Region) :=
    [("lower_inner_PFR",
      { name := "lower_inner_PFR", xinner_ind := 0, xouter_ind := a.ixs1,
        ylower_ind := 0, yupper_ind := a.jys11 + 1 }),
     ("lower_inner_SOL",
      { name := "lower_inner_SOL", xinner_ind := a.ixs2, xouter_ind := a.nx,
        ylower_ind := 0, yupper_ind := a.jys11 + 1 }),
     ("inner_core",
      { name := "inner_core", xinner_ind := 0, xouter_ind := a.ixs1,
        ylower_ind := a.jys11 + 1, yupper_ind := a.jys21 + 1 }),
     ("inner_SOL",
      { name := "inner_SOL", xinner_ind := a.ixs2, xouter_ind := a.nx,
        ylower_ind := a.jys11 + 1, yupper_ind := a.jys21 + 1 }),
     ("upper_inner_PFR",
      { name := "upper_inner_PFR", xinner_ind := 0, xouter_ind := a.ixs1,
        ylower_ind := a.jys21 + 1, yupper_ind := a.nyinner }),
     ("upper_inner_SOL",
      { name := "upper_inner_SOL", xinner_ind := a.ixs2, xouter_ind := a.nx,
        ylower_ind := a.jys21 + 1, yupper_ind := a.nyinner }),
     ("upper_outer_PFR",
      { name := "upper_outer_PFR", xinner_ind := 0, xouter_ind := a.ixs1,
        ylower_ind := a.nyinner, yupper_ind := a.jys12 + 1 }),
     ("upper_outer_SOL",
      { name := "upper_outer_SOL", xinner_ind := a.ixs2, xouter_ind := a.nx,
        ylower_ind := a.nyinner, yupper_ind := a.jys12 + 1 }),
     ("outer_core",
      { name := "outer_core", xinner_ind := 0, xouter_ind := a.ixs1,
        ylower_ind := a.jys12 + 1, yupper_ind := a.jys22 + 1 }),
     ("outer_SOL",
      { name := "outer_SOL", xinner_ind := a.ixs2, xouter_ind := a.nx,
        ylower_ind := a.jys12 + 1, yupper_ind := a.jys22 + 1 }),
     ("lower_outer_PFR",
      { name := "lower_outer_PFR", xinner_ind := 0, xouter_ind := a.ixs1,
        ylower_ind := a.jys22 + 1, yupper_ind := a.ny }),
     ("lower_outer_SOL",
      { name := "lower_outer_SOL", xinner_ind := a.ixs2, xouter_ind := a.nx,
        ylower_ind := a.jys22 + 1, yupper_ind := a.ny })]
  let regions := _create_connection_x regions "lower_inner_PFR" "lower_inner_SOL"
  let regions := _create_connection_x regions "inner_core" "inner_SOL"
  let regions := _create_connection_x regions "upper_inner_PFR" "upper_inner_SOL"
  let regions := _create_connection_x regions "upper_outer_PFR" "upper_outer_SOL"
  let regions := _create_connection_x regions "outer_core" "outer_SOL"
  let regions := _create_connection_x regions "lower_outer_PFR" "lower_outer_SOL"
  let regions := _create_connection_y regions "lower_inner_PFR" "lower_outer_PFR"
  let regions := _create_connection_y regions "lower_inner_SOL" "inner_SOL"
  let regions := _create_connection_y regions "inner_core" "outer_core"
  let regions := _create_connection_y regions "outer_core" "inner_core"
  let regions := _create_connection_y regions "inner_SOL" "upper_inner_SOL"
  let regions := _create_connection_y regions "upper_outer_PFR" "upper_inner_PFR"
  let regions := _create_connection_y regions "upper_outer_SOL" "outer_SOL"
  let regions := _create_connection_y regions "outer_SOL" "lower_outer_SOL"
  regions

/-- The `topology == 'single-null'` table (region.py lines 343-365).  Note the
source's dict keys `outer_PFR` / `outer_SOL` carry `name='lower_PFR'` /
`name='lower_SOL'`, and the `SOL` region's inner bound is `ixs2` while `core`'s
outer bound is `ixs1`. -/
def buildSingleNull (a : AdjustedParams) : List (String × Region) :=
  let regions : List (String × Region) :=
    [("inner_PFR",
      { name := "inner_PFR", xinner_ind := 0, xouter_ind := a.ixs1,
        ylower_ind := 0, yupper_ind := a.jys11 + 1 }),
     ("inner_SOL",
      { name := "inner_SOL", xinner_ind := a.ixs1, xouter_ind := a.nx,
        ylower_ind := 0, yupper_ind := a.jys11 + 1 }),
     ("core",
      { name := "core", xinner_ind := 0, xouter_ind := a.ixs1,
        ylower_ind := a.jys11 + 1, yupper_ind := a.jys22 + 1 }),
     ("SOL",
      { name := "SOL", xinner_ind := a.ixs2, xouter_ind := a.nx,
        ylower_ind := a.jys11 + 1, yupper_ind := a.jys22 + 1 }),
     ("outer_PFR",
      { name := "lower_PFR", xinner_ind := 0, xouter_ind := a.ixs1,
        ylower_ind := a.jys22 + 1, yupper_ind := a.ny }),
     ("outer_SOL",
      { name := "lower_SOL", xinner_ind := a.ixs1, xouter_ind := a.nx,
        ylower_ind := a.jys22 + 1, yupper_ind := a.ny })]
  let regions := _create_connection_x regions "inner_PFR" "inner_SOL"
  let regions := _create_connection_x regions "core" "SOL"
  let regions := _create_connection_x regions "outer_PFR" "outer_SOL"
  let regions := _create_connection_y regions "inner_PFR" "outer_PFR"
  let regions := _create_connection_y regions "inner_SOL" "SOL"
  let regions := _create_connection_y regions "core" "core"
  let regions := _create_connection_y regions "SOL" "outer_SOL"
  regions

/-- The `topology == 'limiter'` table (region.py lines 366-372). -/
def buildLimiter (a : AdjustedParams) : List (String × Region) :=
  let regions : List (String × Region) :=
    [("core",
      { name := "core", xinner_ind := 0, xouter_ind := a.ixs1,
        ylower_ind := 0, yupper_ind := a.ny }),
     ("SOL",
      { name := "SOL", xinner_ind := a.ixs1, xouter_ind := a.nx,
        ylower_ind := 0, yupper_ind := a.ny })]
  let regions := _create_connection_x regions "core" "SOL"
  let regions := _create_connection_y regions "core" "core"
  regions

/-- The `topology == 'core'` table (region.py lines 373-376). -/
def buildCore (a : AdjustedParams) : List (String × Region) :=
  let regions : List (String × Region) :=
    [("core",
      { name := "core", xinner_ind := 0, xouter_ind := a.nx,
        ylower_ind := 0, yupper_ind := a.ny })]
  let regions := _create_connection_y regions "core" "core"
  regions

/-- The `topology == 'sol'` table (region.py lines 377-379). -/
def buildSol (a : AdjustedParams) : List (String × Region) :=
  [("sol",
    { name := "sol", xinner_ind := 0, xouter_ind := a.nx,
      ylower_ind := 0, yupper_ind := a.ny })]

/-- The `topology == 'xpoint'` table (region.py lines 380-412). -/
def buildXpoint (a : AdjustedParams) : List (String × Region) :=
  let regions : List (String × Region) :=
    [("lower_inner_PFR",
      { name := "lower_inner_PFR", xinner_ind := 0, xouter_ind := a.ixs1,
        ylower_ind := 0, yupper_ind := a.jys11 + 1 }),
     ("lower_inner_SOL",
      { name := "lower_inner_SOL", xinner_ind := a.ixs1, xouter_ind := a.nx,
        ylower_ind := 0, yupper_ind := a.jys11 + 1 }),
     ("upper_inner_PFR",
      { name := "upper_inner_PFR", xinner_ind := 0, xouter_ind := a.ixs1,
        ylower_ind := a.jys11 + 1, yupper_ind := a.nyinner }),
     ("upper_inner_SOL",
      { name := "upper_inner_SOL", xinner_ind := a.ixs1, xouter_ind := a.nx,
        ylower_ind := a.jys11 + 1, yupper_ind := a.nyinner }),
     ("upper_outer_PFR",
      { name := "upper_outer_PFR", xinner_ind := 0, xouter_ind := a.ixs1,
        ylower_ind := a.nyinner, yupper_ind := a.jys22 + 1 }),
     ("upper_outer_SOL",
      { name := "upper_outer_SOL", xinner_ind := a.ixs1, xouter_ind := a.nx,
        ylower_ind := a.nyinner, yupper_ind := a.jys22 + 1 }),
     ("lower_outer_PFR",
      { name := "lower_outer_PFR", xinner_ind := 0, xouter_ind := a.ixs1,
        ylower_ind := a.jys22 + 1, yupper_ind := a.ny }),
     ("lower_outer_SOL",
      { name := "lower_outer_SOL", xinner_ind := a.ixs1, xouter_ind := a.nx,
        ylower_ind := a.jys22 + 1, yupper_ind := a.ny })]
  let regions := _create_connection_x regions "lower_inner_PFR" "lower_inner_SOL"
  let regions := _create_connection_x regions "upper_inner_PFR" "upper_inner_SOL"
  let regions := _create_connection_x regions "upper_outer_PFR" "upper_outer_SOL"
  let regions := _create_connection_x regions "lower_outer_PFR" "lower_outer_SOL"
  let regions := _create_connection_y regions "lower_inner_PFR" "lower_outer_PFR"
  let regions := _create_connection_y regions "lower_inner_SOL" "upper_inner_SOL"
  let regions := _create_connection_y regions "upper_outer_PFR" "upper_inner_PFR"
  let regions := _create_connection_y regions "upper_outer_SOL" "lower_outer_SOL"
  regions

/-- Embedding of `_create_regions_toroidal` (region.py lines 163-418): classify,
preprocess, dispatch on the topology tag.  The final `raise NotImplementedError`
branch is `none`; the dataset attachment is elided (the regions dict is the
result). -/
def _create_regions_toroidal (m : Metadata) : Option (List (String × Region)) :=
  if _get_topology m = "disconnected-double-null" then some (buildDDN (boundsAdjust m))
  else if _get_topology m = "connected-double-null" then some (buildCDN (boundsAdjust m))
  else if _get_topology m = "single-null" then some (buildSingleNull (boundsAdjust m))
  else if _get_topology m = "limiter" then some (buildLimiter (boundsAdjust m))
  else if _get_topology m = "core" then some (buildCore (boundsAdjust m))
  else if _get_topology m = "sol" then some (buildSol (boundsAdjust m))
  else if _get_topology m = "xpoint" then some (buildXpoint (boundsAdjust m))
  else none

/-- `(i, j)` lies in the half-open rectangle of a region (no guard-cell
extension). -/
def inRegion (r : Region) (i j : Int) : Prop :=
  r.xinner_ind ≤ i ∧ i < r.xouter_ind ∧ r.ylower_ind ≤ j ∧ j < r.yupper_ind

instance (r : Region) (i j : Int) : Decidable (inRegion r i j) :=
  inferInstanceAs (Decidable (_ ∧ _ ∧ _ ∧ _))

/-- Boolean cover test: some region of the list contains `(i, j)`. -/
def coveredBy (L : List (String × Region)) (i j : Int) : Bool :=
  L.any fun p => decide (inRegion p.2 i j)
/-- The `lower_inner_PFR` entry of the disconnected-double-null table. -/
def ddnR_lower_inner_PFR (a : AdjustedParams) : String × Region :=
  ("lower_inner_PFR",
    { name := "lower_inner_PFR", xinner_ind := 0, xouter_ind := a.ixs1,
      ylower_ind := 0, yupper_ind := a.jys11 + 1,
      connection_inner := none, connection_outer := some "lower_inner_intersep",
      connection_lower := none, connection_upper := some "lower_outer_PFR" })

/-- The `lower_inner_intersep` entry of the disconnected-double-null table. -/
def ddnR_lower_inner_intersep (a : AdjustedParams) : String × Region :=
  ("lower_inner_intersep",
    { name := "lower_inner_intersep", xinner_ind := a.ixs1, xouter_ind := a.ixs2,
      ylower_ind := 0, yupper_ind := a.jys11 + 1,
      connection_inner := some "lower_inner_PFR", connection_outer := some "lower_inner_SOL",
      connection_lower := none, connection_upper := some "inner_intersep" })

/-- The `lower_inner_SOL` entry of the disconnected-double-null table. -/
def ddnR_lower_inner_SOL (a : AdjustedParams) : String × Region :=
  ("lower_inner_SOL",
    { name := "lower_inner_SOL", xinner_ind := a.ixs2, xouter_ind := a.nx,
      ylower_ind := 0, yupper_ind := a.jys11 + 1,
      connection_inner := some "lower_inner_intersep", connection_outer := none,
      connection_lower := none, connection_upper := some "inner_SOL" })

/-- The `inner_core` entry of the disconnected-double-null table. -/
def ddnR_inner_core (a : AdjustedParams) : String × Region :=
  ("inner_core",
    { name := "inner_core", xinner_ind := 0, xouter_ind := a.ixs1,
      ylower_ind := a.jys11 + 1, yupper_ind := a.jys21 + 1,
      connection_inner := none, connection_outer := some "inner_intersep",
      connection_lower := some "outer_core", connection_upper := some "outer_core" })

/-- The `inner_intersep` entry of the disconnected-double-null table. -/
def ddnR_inner_intersep (a : AdjustedParams) : String × Region :=
  ("inner_intersep",
    { name := "inner_intersep", xinner_ind := a.ixs1, xouter_ind := a.ixs2,
      ylower_ind := a.jys11 + 1, yupper_ind := a.jys21 + 1,
      connection_inner := some "inner_core", connection_outer := some "inner_SOL",
      connection_lower := some "lower_inner_intersep", connection_upper := some "outer_intersep" })

/-- The `inner_SOL` entry of the disconnected-double-null table. -/
def ddnR_inner_SOL (a : AdjustedParams) : String × Region :=
  ("inner_SOL",
    { name := "inner_SOL", xinner_ind := a.ixs2, xouter_ind := a.nx,
      ylower_ind := a.jys11 + 1, yupper_ind := a.jys21 + 1,
      connection_inner := some "inner_intersep", connection_outer := none,
      connection_lower := some "lower_inner_SOL", connection_upper := some "upper_inner_SOL" })

/-- The `upper_inner_PFR` entry of the disconnected-double-null table. -/
def ddnR_upper_inner_PFR (a : AdjustedParams) : String × Region :=
  ("upper_inner_PFR",
    { name := "upper_inner_PFR", xinner_ind := 0, xouter_ind := a.ixs1,
      ylower_ind := a.jys21 + 1, yupper_ind := a.nyinner,
      connection_inner := none, connection_outer := some "upper_inner_intersep",
      connection_lower := some "upper_outer_PFR", connection_upper := none })

/-- The `upper_inner_intersep` entry of the disconnected-double-null table. -/
def ddnR_upper_inner_intersep (a : AdjustedParams) : String × Region :=
  ("upper_inner_intersep",
    { name := "upper_inner_intersep", xinner_ind := a.ixs1, xouter_ind := a.ixs2,
      ylower_ind := a.jys21 + 1, yupper_ind := a.nyinner,
      connection_inner := some "upper_inner_PFR", connection_outer := some "upper_inner_SOL",
      connection_lower := some "upper_outer_intersep", connection_upper := none })

/-- The `upper_inner_SOL` entry of the disconnected-double-null table. -/
def ddnR_upper_inner_SOL (a : AdjustedParams) : String × Region :=
  ("upper_inner_SOL",
    { name := "upper_inner_SOL", xinner_ind := a.ixs2, xouter_ind := a.nx,
      ylower_ind := a.jys21 + 1, yupper_ind := a.nyinner,
      connection_inner := some "upper_inner_intersep", connection_outer := none,
      connection_lower := some "inner_SOL", connection_upper := none })

/-- The `upper_outer_PFR` entry of the disconnected-double-null table. -/
def ddnR_upper_outer_PFR (a : AdjustedParams) : String × Region :=
  ("upper_outer_PFR",
    { name := "upper_outer_PFR", xinner_ind := 0, xouter_ind := a.ixs1,
      ylower_ind := a.nyinner, yupper_ind := a.jys12 + 1,
      connection_inner := none, connection_outer := some "upper_outer_intersep",
      connection_lower := none, connection_upper := some "upper_inner_PFR" })

/-- The `upper_outer_intersep` entry of the disconnected-double-null table. -/
def ddnR_upper_outer_intersep (a : AdjustedParams) : String × Region :=
  ("upper_outer_intersep",
    { name := "upper_outer_intersep", xinner_ind := a.ixs1, xouter_ind := a.ixs2,
      ylower_ind := a.nyinner, yupper_ind := a.jys12 + 1,
      connection_inner := some "upper_outer_PFR", connection_outer := some "upper_outer_SOL",
      connection_lower := none, connection_upper := some "upper_inner_intersep" })

/-- The `upper_outer_SOL` entry of the disconnected-double-null table. -/
def ddnR_upper_outer_SOL (a : AdjustedParams) : String × Region :=
  ("upper_outer_SOL",
    { name := "upper_outer_SOL", xinner_ind := a.ixs2, xouter_ind := a.nx,
      ylower_ind := a.nyinner, yupper_ind := a.jys12 + 1,
      connection_inner := some "upper_outer_intersep", connection_outer := none,
      connection_lower := none, connection_upper := some "outer_SOL" })

/-- The `outer_core` entry of the disconnected-double-null table. -/
def ddnR_outer_core (a : AdjustedParams) : String × Region :=
  ("outer_core",
    { name := "outer_core", xinner_ind := 0, xouter_ind := a.ixs1,
      ylower_ind := a.jys12 + 1, yupper_ind := a.jys22 + 1,
      connection_inner := none, connection_outer := some "outer_intersep",
      connection_lower := some "inner_core", connection_upper := some "inner_core" })

/-- The `outer_intersep` entry of the disconnected-double-null table. -/
def ddnR_outer_intersep (a : AdjustedParams) : String × Region :=
  ("outer_intersep",
    { name := "outer_intersep", xinner_ind := a.ixs1, xouter_ind := a.ixs2,
      ylower_ind := a.jys12 + 1, yupper_ind := a.jys22 + 1,
      connection_inner := some "outer_core", connection_outer := some "outer_SOL",
      connection_lower := some "inner_intersep", connection_upper := some "lower_outer_intersep" })

/-- The `outer_SOL` entry of the disconnected-double-null table. -/
def ddnR_outer_SOL (a : AdjustedParams) : String × Region :=
  ("outer_SOL",
    { name := "outer_SOL", xinner_ind := a.ixs2, xouter_ind := a.nx,
      ylower_ind := a.jys12 + 1, yupper_ind := a.jys22 + 1,
      connection_inner := some "outer_intersep", connection_outer := none,
      connection_lower := some "upper_outer_SOL", connection_upper := some "lower_outer_SOL" })

/-- The `lower_outer_PFR` entry of the disconnected-double-null table. -/
def ddnR_lower_outer_PFR (a : AdjustedParams) : String × Region :=
  ("lower_outer_PFR",
    { name := "lower_outer_PFR", xinner_ind := 0, xouter_ind := a.ixs1,
      ylower_ind := a.jys22 + 1, yupper_ind := a.ny,
      connection_inner := none, connection_outer := some "lower_outer_intersep",
      connection_lower := some "lower_inner_PFR", connection_upper := none })

/-- The `lower_outer_intersep` entry of the disconnected-double-null table. -/
def ddnR_lower_outer_intersep (a : AdjustedParams) : String × Region :=
  ("lower_outer_intersep",
    { name := "lower_outer_intersep", xinner_ind := a.ixs1, xouter_ind := a.ixs2,
      ylower_ind := a.jys22 + 1, yupper_ind := a.ny,
      connection_inner := some "lower_outer_PFR", connection_outer := some "lower_outer_SOL",
      connection_lower := some "outer_intersep", connection_upper := none })

/-- The `lower_outer_SOL` entry of the disconnected-double-null table. -/
def ddnR_lower_outer_SOL (a : AdjustedParams) : String × Region :=
  ("lower_outer_SOL",
    { name := "lower_outer_SOL", xinner_ind := a.ixs2, xouter_ind := a.nx,
      ylower_ind := a.jys22 + 1, yupper_ind := a.ny,
      connection_inner := some "lower_outer_intersep", connection_outer := none,
      connection_lower := some "outer_SOL", connection_upper := none })

/-- The fully wired disconnected-double-null regions dict, entry by entry. -/
def ddnWired (a : AdjustedParams) : List (String × Region) :=
  [ddnR_lower_inner_PFR a, ddnR_lower_inner_intersep a, ddnR_lower_inner_SOL a, ddnR_inner_core a, ddnR_inner_intersep a, ddnR_inner_SOL a, ddnR_upper_inner_PFR a, ddnR_upper_inner_intersep a, ddnR_upper_inner_SOL a, ddnR_upper_outer_PFR a, ddnR_upper_outer_intersep a, ddnR_upper_outer_SOL a, ddnR_outer_core a, ddnR_outer_intersep a, ddnR_outer_SOL a, ddnR_lower_outer_PFR a, ddnR_lower_outer_intersep a, ddnR_lower_outer_SOL a]

/-- `buildDDN` computes to its written-out table. -/
theorem buildDDN_eq (a : AdjustedParams) : buildDDN a = ddnWired a := by
  simp only [buildDDN, _create_connection_x, _create_connection_y, setConnOuter,
    setConnInner, setConnUpper, setConnLower, List.map_cons, List.map_nil,
    String.reduceEq, reduceIte, ddnWired,
    ddnR_lower_inner_PFR, ddnR_lower_inner_intersep, ddnR_lower_inner_SOL, ddnR_inner_core, ddnR_inner_intersep, ddnR_inner_SOL, ddnR_upper_inner_PFR, ddnR_upper_inner_intersep, ddnR_upper_inner_SOL, ddnR_upper_outer_PFR, ddnR_upper_outer_intersep, ddnR_upper_outer_SOL, ddnR_outer_core, ddnR_outer_intersep, ddnR_outer_SOL, ddnR_lower_outer_PFR, ddnR_lower_outer_intersep, ddnR_lower_outer_SOL]
/-- The fully wired `cdn` regions dict, written out entry by entry. -/
def cdnWired (a : AdjustedParams) : List (String × Region) :=
  [("lower_inner_PFR",
    { name := "lower_inner_PFR", xinner_ind := 0, xouter_ind := a.ixs1,
      ylower_ind := 0, yupper_ind := a.jys11 + 1,
      connection_inner := none, connection_outer := some "lower_inner_SOL",
      connection_lower := none, connection_upper := some "lower_outer_PFR" }),
   ("lower_inner_SOL",
    { name := "lower_inner_SOL", xinner_ind := a.ixs2, xouter_ind := a.nx,
      ylower_ind := 0, yupper_ind := a.jys11 + 1,
      connection_inner := some "lower_inner_PFR", connection_outer := none,
      connection_lower := none, connection_upper := some "inner_SOL" }),
   ("inner_core",
    { name := "inner_core", xinner_ind := 0, xouter_ind := a.ixs1,
      ylower_ind := a.jys11 + 1, yupper_ind := a.jys21 + 1,
      connection_inner := none, connection_outer := some "inner_SOL",
      connection_lower := some "outer_core", connection_upper := some "outer_core" }),
   ("inner_SOL",
    { name := "inner_SOL", xinner_ind := a.ixs2, xouter_ind := a.nx,
      ylower_ind := a.jys11 + 1, yupper_ind := a.jys21 + 1,
      connection_inner := some "inner_core", connection_outer := none,
      connection_lower := some "lower_inner_SOL", connection_upper := some "upper_inner_SOL" }),
   ("upper_inner_PFR",
    { name := "upper_inner_PFR", xinner_ind := 0, xouter_ind := a.ixs1,
      ylower_ind := a.jys21 + 1, yupper_ind := a.nyinner,
      connection_inner := none, connection_outer := some "upper_inner_SOL",
      connection_lower := some "upper_outer_PFR", connection_upper := none }),
   ("upper_inner_SOL",
    { name := "upper_inner_SOL", xinner_ind := a.ixs2, xouter_ind := a.nx,
      ylower_ind := a.jys21 + 1, yupper_ind := a.nyinner,
      connection_inner := some "upper_inner_PFR", connection_outer := none,
      connection_lower := some "inner_SOL", connection_upper := none }),
   ("upper_outer_PFR",
    { name := "upper_outer_PFR", xinner_ind := 0, xouter_ind := a.ixs1,
      ylower_ind := a.nyinner, yupper_ind := a.jys12 + 1,
      connection_inner := none, connection_outer := some "upper_outer_SOL",
      connection_lower := none, connection_upper := some "upper_inner_PFR" }),
   ("upper_outer_SOL",
    { name := "upper_outer_SOL", xinner_ind := a.ixs2, xouter_ind := a.nx,
      ylower_ind := a.nyinner, yupper_ind := a.jys12 + 1,
      connection_inner := some "upper_outer_PFR", connection_outer := none,
      connection_lower := none, connection_upper := some "outer_SOL" }),
   ("outer_core",
    { name := "outer_core", xinner_ind := 0, xouter_ind := a.ixs1,
      ylower_ind := a.jys12 + 1, yupper_ind := a.jys22 + 1,
      connection_inner := none, connection_outer := some "outer_SOL",
      connection_lower := some "inner_core", connection_upper := some "inner_core" }),
   ("outer_SOL",
    { name := "outer_SOL", xinner_ind := a.ixs2, xouter_ind := a.nx,
      ylower_ind := a.jys12 + 1, yupper_ind := a.jys22 + 1,
      connection_inner := some "outer_core", connection_outer := none,
      connection_lower := some "upper_outer_SOL", connection_upper := some "lower_outer_SOL" }),
   ("lower_outer_PFR",
    { name := "lower_outer_PFR", xinner_ind := 0, xouter_ind := a.ixs1,
      ylower_ind := a.jys22 + 1, yupper_ind := a.ny,
      connection_inner := none, connection_outer := some "lower_outer_SOL",
      connection_lower := some "lower_inner_PFR", connection_upper := none }),
   ("lower_outer_SOL",
    { name := "lower_outer_SOL", xinner_ind := a.ixs2, xouter_ind := a.nx,
      ylower_ind := a.jys22 + 1, yupper_ind := a.ny,
      connection_inner := some "lower_outer_PFR", connection_outer := none,
      connection_lower := some "outer_SOL", connection_upper := none })]

/-- `buildCDN` computes to its written-out table. -/
theorem buildCDN_eq (a : AdjustedParams) : buildCDN a = cdnWired a := by
  simp only [buildCDN, _create_connection_x, _create_connection_y, setConnOuter,
    setConnInner, setConnUpper, setConnLower, List.map_cons, List.map_nil,
    String.reduceEq, reduceIte, cdnWired]

/-- The fully wired `singlenull` regions dict, written out entry by entry. -/
def singleNullWired (a : AdjustedParams) : List (String × Region) :=
  [("inner_PFR",
    { name := "inner_PFR", xinner_ind := 0, xouter_ind := a.ixs1,
      ylower_ind := 0, yupper_ind := a.jys11 + 1,
      connection_inner := none, connection_outer := some "inner_SOL",
      connection_lower := none, connection_upper := some "outer_PFR" }),
   ("inner_SOL",
    { name := "inner_SOL", xinner_ind := a.ixs1, xouter_ind := a.nx,
      ylower_ind := 0, yupper_ind := a.jys11 + 1,
      connection_inner := some "inner_PFR", connection_outer := none,
      connection_lower := none, connection_upper := some "SOL" }),
   ("core",
    { name := "core", xinner_ind := 0, xouter_ind := a.ixs1,
      ylower_ind := a.jys11 + 1, yupper_ind := a.jys22 + 1,
      connection_inner := none, connection_outer := some "SOL",
      connection_lower := some "core", connection_upper := some "core" }),
   ("SOL",
    { name := "SOL", xinner_ind := a.ixs2, xouter_ind := a.nx,
      ylower_ind := a.jys11 + 1, yupper_ind := a.jys22 + 1,
      connection_inner := some "core", connection_outer := none,
      connection_lower := some "inner_SOL", connection_upper := some "outer_SOL" }),
   ("outer_PFR",
    { name := "lower_PFR", xinner_ind := 0, xouter_ind := a.ixs1,
      ylower_ind := a.jys22 + 1, yupper_ind := a.ny,
      connection_inner := none, connection_outer := some "outer_SOL",
      connection_lower := some "inner_PFR", connection_upper := none }),
   ("outer_SOL",
    { name := "lower_SOL", xinner_ind := a.ixs1, xouter_ind := a.nx,
      ylower_ind := a.jys22 + 1, yupper_ind := a.ny,
      connection_inner := some "outer_PFR", connection_outer := none,
      connection_lower := some "SOL", connection_upper := none })]

/-- `buildSingleNull` computes to its written-out table. -/
theorem buildSingleNull_eq (a : AdjustedParams) : buildSingleNull a = singleNullWired a := by
  simp only [buildSingleNull, _create_connection_x, _create_connection_y, setConnOuter,
    setConnInner, setConnUpper, setConnLower, List.map_cons, List.map_nil,
    String.reduceEq, reduceIte, singleNullWired]

/-- The fully wired `xpoint` regions dict, written out entry by entry. -/
def xpointWired (a : AdjustedParams) : List (String × Region) :=
  [("lower_inner_PFR",
    { name := "lower_inner_PFR", xinner_ind := 0, xouter_ind := a.ixs1,
      ylower_ind := 0, yupper_ind := a.jys11 + 1,
      connection_inner := none, connection_outer := some "lower_inner_SOL",
      connection_lower := none, connection_upper := some "lower_outer_PFR" }),
   ("lower_inner_SOL",
    { name := "lower_inner_SOL", xinner_ind := a.ixs1, xouter_ind := a.nx,
      ylower_ind := 0, yupper_ind := a.jys11 + 1,
      connection_inner := some "lower_inner_PFR", connection_outer := none,
      connection_lower := none, connection_upper := some "upper_inner_SOL" }),
   ("upper_inner_PFR",
    { name := "upper_inner_PFR", xinner_ind := 0, xouter_ind := a.ixs1,
      ylower_ind := a.jys11 + 1, yupper_ind := a.nyinner,
      connection_inner := none, connection_outer := some "upper_inner_SOL",
      connection_lower := some "upper_outer_PFR", connection_upper := none }),
   ("upper_inner_SOL",
    { name := "upper_inner_SOL", xinner_ind := a.ixs1, xouter_ind := a.nx,
      ylower_ind := a.jys11 + 1, yupper_ind := a.nyinner,
      connection_inner := some "upper_inner_PFR", connection_outer := none,
      connection_lower := some "lower_inner_SOL", connection_upper := none }),
   ("upper_outer_PFR",
    { name := "upper_outer_PFR", xinner_ind := 0, xouter_ind := a.ixs1,
      ylower_ind := a.nyinner, yupper_ind := a.jys22 + 1,
      connection_inner := none, connection_outer := some "upper_outer_SOL",
      connection_lower := none, connection_upper := some "upper_inner_PFR" }),
   ("upper_outer_SOL",
    { name := "upper_outer_SOL", xinner_ind := a.ixs1, xouter_ind := a.nx,
      ylower_ind := a.nyinner, yupper_ind := a.jys22 + 1,
      connection_inner := some "upper_outer_PFR", connection_outer := none,
      connection_lower := none, connection_upper := some "lower_outer_SOL" }),
   ("lower_outer_PFR",
    { name := "lower_outer_PFR", xinner_ind := 0, xouter_ind := a.ixs1,
      ylower_ind := a.jys22 + 1, yupper_ind := a.ny,
      connection_inner := none, connection_outer := some "lower_outer_SOL",
      connection_lower := some "lower_inner_PFR", connection_upper := none }),
   ("lower_outer_SOL",
    { name := "lower_outer_SOL", xinner_ind := a.ixs1, xouter_ind := a.nx,
      ylower_ind := a.jys22 + 1, yupper_ind := a.ny,
      connection_inner := some "lower_outer_PFR", connection_outer := none,
      connection_lower := some "upper_outer_SOL", connection_upper := none })]

/-- `buildXpoint` computes to its written-out table. -/
theorem buildXpoint_eq (a : AdjustedParams) : buildXpoint a = xpointWired a := by
  simp only [buildXpoint, _create_connection_x, _create_connection_y, setConnOuter,
    setConnInner, setConnUpper, setConnLower, List.map_cons, List.map_nil,
    String.reduceEq, reduceIte, xpointWired]

/-- The fully wired `core` regions dict, written out entry by entry. -/
def coreWired (a : AdjustedParams) : List (String × Region) :=
  [("core",
    { name := "core", xinner_ind := 0, xouter_ind := a.nx,
      ylower_ind := 0, yupper_ind := a.ny,
      connection_inner := none, connection_outer := none,
      connection_lower := some "core", connection_upper := some "core" })]

/-- `buildCore` computes to its written-out table. -/
theorem buildCore_eq (a : AdjustedParams) : buildCore a = coreWired a := by
  simp only [buildCore, _create_connection_x, _create_connection_y, setConnOuter,
    setConnInner, setConnUpper, setConnLower, List.map_cons, List.map_nil,
    String.reduceEq, reduceIte, coreWired]
/-- The fully wired `limiter` regions dict. -/
def limiterWired (a : AdjustedParams) : List (String × Region) :=
  [("core",
    { name := "core", xinner_ind := 0, xouter_ind := a.ixs1,
      ylower_ind := 0, yupper_ind := a.ny,
      connection_inner := none, connection_outer := some "SOL",
      connection_lower := some "core", connection_upper := some "core" }),
   ("SOL",
    { name := "SOL", xinner_ind := a.ixs1, xouter_ind := a.nx,
      ylower_ind := 0, yupper_ind := a.ny,
      connection_inner := some "core", connection_outer := none,
      connection_lower := none, connection_upper := none })]

/-- `buildLimiter` computes to its written-out table. -/
theorem buildLimiter_eq (a : AdjustedParams) : buildLimiter a = limiterWired a := by
  simp only [buildLimiter, _create_connection_x, _create_connection_y, setConnOuter,
    setConnInner, setConnUpper, setConnLower, List.map_cons, List.map_nil,
    String.reduceEq, reduceIte, limiterWired]

/-- The fully wired `sol` regions dict. -/
def solWired (a : AdjustedParams) : List (String × Region) :=
  [("sol",
    { name := "sol", xinner_ind := 0, xouter_ind := a.nx,
      ylower_ind := 0, yupper_ind := a.ny,
      connection_inner := none, connection_outer := none,
      connection_lower := none, connection_upper := none })]

/-- `buildSol` computes to its written-out table. -/
theorem buildSol_eq (a : AdjustedParams) : buildSol a = solWired a := by
  simp only [buildSol, _create_connection_x, _create_connection_y, setConnOuter,
    setConnInner, setConnUpper, setConnLower, List.map_cons, List.map_nil,
    String.reduceEq, reduceIte, solWired]

/-! ### The slice operations (claims C1 and C9) -/

/-- A single-null-style `inner_PFR` region: true boundary on the inner-x side
(`connection_inner = None`), internal seam on the outer-x side. -/
def pfrExample : Region :=
  { name := "inner_PFR", xinner_ind := 0, xouter_ind := 5, ylower_ind := 0,
    yupper_ind := 3, connection_outer := some "inner_SOL" }

/-- C1 (code bug): on a region whose only connection is `connection_outer`,
`getSlices` with `mxg = 2` returns the x-slice `(2, 5)` - the *start* was moved
from `xinner_ind = 0` to `xinner_ind + mxg`, and the end stays at
`xouter_ind = 5` - instead of the slice `(0, 7)` that selects the region
extended by the guard width on the connected outer side, as the claim (and the
method's own docstring, "slices that select this region") requires: line 40 of
region.py mutates `xi` where `xo` was intended. -/
theorem getSlices_outer_connection_moves_start :
    pfrExample.getSlices 2 0 = ((2, 5), (0, 3)) ∧
      pfrExample.getSlices 2 0 ≠ ((0, 7), (0, 3)) := by
  constructor
  · rfl
  · decide

/-- C9: each guard-band slice method returns exactly the band of the requested
width immediately outside the region's own bound on the named side, spanning
the region's full extent in the other dimension; the results do not depend on
the connection fields. -/
theorem guard_band_slices (r : Region) (mxg myg : Int) :
    r.getInnerGuardsSlices mxg
        = ((r.xinner_ind - mxg, r.xinner_ind), (r.ylower_ind, r.yupper_ind)) ∧
    r.getOuterGuardsSlices mxg
        = ((r.xouter_ind, r.xouter_ind + mxg), (r.ylower_ind, r.yupper_ind)) ∧
    r.getLowerGuardsSlices myg
        = ((r.xinner_ind, r.xouter_ind), (r.ylower_ind - myg, r.ylower_ind)) ∧
    r.getUpperGuardsSlices myg
        = ((r.xinner_ind, r.xouter_ind), (r.yupper_ind, r.yupper_ind + myg)) ∧
    ∀ ci co cl cu : Option String,
      (let r' := { r with connection_inner := ci, connection_outer := co,
                          connection_lower := cl, connection_upper := cu }
       r'.getInnerGuardsSlices mxg = r.getInnerGuardsSlices mxg ∧
       r'.getOuterGuardsSlices mxg = r.getOuterGuardsSlices mxg ∧
       r'.getLowerGuardsSlices myg = r.getLowerGuardsSlices myg ∧
       r'.getUpperGuardsSlices myg = r.getUpperGuardsSlices myg) :=
  ⟨rfl, rfl, rfl, rfl, fun _ _ _ _ => ⟨rfl, rfl, rfl, rfl⟩⟩

/-! ### The topology classifier (claim C5) -/

/-- C5: on metadata with `jyseps2_1 == jyseps1_2`, `jyseps1_1 <= 0` and
`jyseps2_2 >= ny - 1` (and at least two radial points), `_get_topology` is
determined by `ix = min(ixseps1, ixseps2)` alone: `core` when `ix >= nx - 1`,
else `sol` when `ix <= 0`, else (`ix` in `1 .. nx - 2`) `limiter`. -/
theorem get_topology_no_leg_classification (m : Metadata)
    (h1 : m.jyseps2_1 = m.jyseps1_2) (h2 : m.jyseps1_1 ≤ 0)
    (h3 : m.jyseps2_2 ≥ m.ny - 1) (_h4 : 2 ≤ m.nx) :
    _get_topology m =
      if min m.ixseps1 m.ixseps2 ≥ m.nx - 1 then "core"
      else if min m.ixseps1 m.ixseps2 ≤ 0 then "sol"
      else "limiter" := by
  unfold _get_topology
  rw [if_pos h1, if_pos ⟨h2, h3⟩]

/-- C5 witness: a concrete limiter-class metadata (`nx = 5`, separatrix at 2)
hits the third branch. -/
theorem get_topology_no_leg_classification_witness :
    ((3 : Int) = 3 ∧ (-1 : Int) ≤ 0 ∧ (7 : Int) ≥ 8 - 1 ∧ (2 : Int) ≤ 5) ∧
      _get_topology (Metadata.mk 5 8 4 2 3 (-1) 3 3 7 2 2 true true) =
        if min (2 : Int) 3 ≥ 5 - 1 then "core"
        else if min (2 : Int) 3 ≤ 0 then "sol"
        else "limiter" :=
  ⟨by norm_num,
   get_topology_no_leg_classification (Metadata.mk 5 8 4 2 3 (-1) 3 3 7 2 2 true true)
     rfl (by norm_num) (by norm_num) (by norm_num)⟩

/-! ### The preprocessing pipeline (claim C6) -/

/-- The claim's clamp of a value into `[lo, hi]` (when `hi < lo`, a case the
claim's wording leaves open, this follows the source's check-lower-bound-first
convention). -/
def specClamp (v lo hi : Int) : Int :=
  if v < lo then lo else min v hi

/-- The claim's "order the pair so that the first is `<=` the second". -/
def specOrderPair (a b : Int) : Int × Int :=
  if a ≤ b then (a, b) else (b, a)

/-- The reference preprocessing pipeline exactly as claim C6 words it: clamp
`ixseps1, ixseps2` into `[0, nx]` then swap so `ixseps1 <= ixseps2`; clamp
`jyseps1_1, jyseps2_1, jyseps1_2` into `[0, ny-1]` and order so
`jyseps2_1 <= jyseps1_2`; clamp `ny_inner` into `[jyseps2_1+1, jyseps1_2+1]`;
clamp `jyseps2_2` into `[0, ny-1]`; if `keep_xboundaries` is false subtract
`MXG` from `ixseps1` and `ixseps2` and `2*MXG` from `nx`; with
`ybndry = MYG if keep_yboundaries else 0`, add `ybndry` to `jyseps1_1` and
`jyseps2_1`, `2*ybndry` to `ny_inner`, `3*ybndry` to `jyseps1_2` and
`jyseps2_2`, and `4*ybndry` to `ny`. -/
def specAdjust (m : Metadata) : AdjustedParams :=
  let ixs1 := specClamp m.ixseps1 0 m.nx
  let ixs2 := specClamp m.ixseps2 0 m.nx
  let ox := specOrderPair ixs1 ixs2
  let ixs1 := ox.1
  let ixs2 := ox.2
  let jys11 := specClamp m.jyseps1_1 0 (m.ny - 1)
  let jys21 := specClamp m.jyseps2_1 0 (m.ny - 1)
  let jys12 := specClamp m.jyseps1_2 0 (m.ny - 1)
  let oy := specOrderPair jys21 jys12
  let jys21 := oy.1
  let jys12 := oy.2
  let nyinner := specClamp m.ny_inner (jys21 + 1) (jys12 + 1)
  let jys22 := specClamp m.jyseps2_2 0 (m.ny - 1)
  let ixs1 := if m.keep_xboundaries then ixs1 else ixs1 - m.MXG
  let ixs2 := if m.keep_xboundaries then ixs2 else ixs2 - m.MXG
  let nx := if m.keep_xboundaries then m.nx else m.nx - 2 * m.MXG
  let ybndry := if m.keep_yboundaries then m.MYG else 0
  { ixs1 := ixs1
    ixs2 := ixs2
    nx := nx
    jys11 := jys11 + ybndry
    jys21 := jys21 + ybndry
    nyinner := nyinner + 2 * ybndry
    jys12 := jys12 + 3 * ybndry
    jys22 := jys22 + 3 * ybndry
    ny := m.ny + 4 * ybndry }

theorem in_range_eq_specClamp (v lo hi : Int) : _in_range v lo hi = specClamp v lo hi := by
  unfold _in_range specClamp
  split_ifs <;> omega

theorem order_vars_eq_specOrderPair (a b : Int) :
    _order_vars a b = specOrderPair a b := by
  unfold _order_vars specOrderPair
  split_ifs <;> first | rfl | (exfalso; omega)

/-- C6: the preprocessing block of `_create_regions_toroidal` computes exactly
the claim's reference pipeline, on every metadata. -/
theorem boundsAdjust_eq_specAdjust (m : Metadata) : boundsAdjust m = specAdjust m := by
  simp only [boundsAdjust, specAdjust, in_range_eq_specClamp, order_vars_eq_specOrderPair]

/-! ### Totality of the builder (claim C8) -/

/-- `_get_topology` always returns one of the seven implemented tags. -/
theorem get_topology_cases (m : Metadata) :
    _get_topology m = "core" ∨ _get_topology m = "sol" ∨
    _get_topology m = "limiter" ∨ _get_topology m = "single-null" ∨
    _get_topology m = "xpoint" ∨ _get_topology m = "connected-double-null" ∨
    _get_topology m = "disconnected-double-null" := by
  unfold _get_topology
  split_ifs <;> simp

/-- C8 (amended): `_create_regions_toroidal` performs no geometry validation
and never fails: for every metadata - including metadata whose adjusted
breakpoints violate the partition invariant - it returns a region set.  The
source has no `InvalidMeshGeometry` error at all; its only `raise` is the
`NotImplementedError` for an unrecognized topology tag, which is unreachable
because the classifier is total over the seven implemented tags. -/
theorem create_regions_toroidal_total (m : Metadata) :
    (_create_regions_toroidal m).isSome = true := by
  rcases get_topology_cases m with h | h | h | h | h | h | h <;>
    simp [_create_regions_toroidal, h]

/-- Ordering constraints on the adjusted parameters under which the region
tables tile the domain: the three x-breakpoints and the seven y-breakpoints
are monotone chains. -/
def OrderedParams (a : AdjustedParams) : Prop :=
  0 ≤ a.ixs1 ∧ a.ixs1 ≤ a.ixs2 ∧ a.ixs2 ≤ a.nx ∧
  -1 ≤ a.jys11 ∧ a.jys11 ≤ a.jys21 ∧ a.jys21 < a.nyinner ∧
  a.nyinner ≤ a.jys12 + 1 ∧ a.jys12 ≤ a.jys22 ∧ a.jys22 < a.ny
set_option maxHeartbeats 1000000 in
/-- Cover half of the partition property for the disconnected-double-null
table: under the ordering constraints the 18 rectangles cover the domain. -/
theorem ddn_cover (a : AdjustedParams) (h : OrderedParams a) : ∀ i j : Int,
    (0 ≤ i ∧ i < a.nx ∧ 0 ≤ j ∧ j < a.ny) ↔
      ∃ p ∈ buildDDN a, inRegion p.2 i j := by
  rw [buildDDN_eq]
  obtain ⟨h1, h2, h3, h4, h5, h6, h7, h8, h9⟩ := h
  intro i j
  constructor
  · rintro ⟨hi0, hin, hj0, hjn⟩
    by_cases hy1 : j < a.jys11 + 1
    · by_cases hx1 : i < a.ixs1
      · exact ⟨ddnR_lower_inner_PFR a, by simp [ddnWired],
          by simp only [ddnR_lower_inner_PFR, inRegion]; omega⟩
      · by_cases hx2 : i < a.ixs2
        · exact ⟨ddnR_lower_inner_intersep a, by simp [ddnWired],
            by simp only [ddnR_lower_inner_intersep, inRegion]; omega⟩
        · exact ⟨ddnR_lower_inner_SOL a, by simp [ddnWired],
            by simp only [ddnR_lower_inner_SOL, inRegion]; omega⟩
    · by_cases hy2 : j < a.jys21 + 1
      · by_cases hx1 : i < a.ixs1
        · exact ⟨ddnR_inner_core a, by simp [ddnWired],
            by simp only [ddnR_inner_core, inRegion]; omega⟩
        · by_cases hx2 : i < a.ixs2
          · exact ⟨ddnR_inner_intersep a, by simp [ddnWired],
              by simp only [ddnR_inner_intersep, inRegion]; omega⟩
          · exact ⟨ddnR_inner_SOL a, by simp [ddnWired],
              by simp only [ddnR_inner_SOL, inRegion]; omega⟩
      · by_cases hy3 : j < a.nyinner
        · by_cases hx1 : i < a.ixs1
          · exact ⟨ddnR_upper_inner_PFR a, by simp [ddnWired],
              by simp only [ddnR_upper_inner_PFR, inRegion]; omega⟩
          · by_cases hx2 : i < a.ixs2
            · exact ⟨ddnR_upper_inner_intersep a, by simp [ddnWired],
                by simp only [ddnR_upper_inner_intersep, inRegion]; omega⟩
            · exact ⟨ddnR_upper_inner_SOL a, by simp [ddnWired],
                by simp only [ddnR_upper_inner_SOL, inRegion]; omega⟩
        · by_cases hy4 : j < a.jys12 + 1
          · by_cases hx1 : i < a.ixs1
            · exact ⟨ddnR_upper_outer_PFR a, by simp [ddnWired],
                by simp only [ddnR_upper_outer_PFR, inRegion]; omega⟩
            · by_cases hx2 : i < a.ixs2
              · exact ⟨ddnR_upper_outer_intersep a, by simp [ddnWired],
                  by simp only [ddnR_upper_outer_intersep, inRegion]; omega⟩
              · exact ⟨ddnR_upper_outer_SOL a, by simp [ddnWired],
                  by simp only [ddnR_upper_outer_SOL, inRegion]; omega⟩
          · by_cases hy5 : j < a.jys22 + 1
            · by_cases hx1 : i < a.ixs1
              · exact ⟨ddnR_outer_core a, by simp [ddnWired],
                  by simp only [ddnR_outer_core, inRegion]; omega⟩
              · by_cases hx2 : i < a.ixs2
                · exact ⟨ddnR_outer_intersep a, by simp [ddnWired],
                    by simp only [ddnR_outer_intersep, inRegion]; omega⟩
                · exact ⟨ddnR_outer_SOL a, by simp [ddnWired],
                    by simp only [ddnR_outer_SOL, inRegion]; omega⟩
            · by_cases hx1 : i < a.ixs1
              · exact ⟨ddnR_lower_outer_PFR a, by simp [ddnWired],
                  by simp only [ddnR_lower_outer_PFR, inRegion]; omega⟩
              · by_cases hx2 : i < a.ixs2
                · exact ⟨ddnR_lower_outer_intersep a, by simp [ddnWired],
                    by simp only [ddnR_lower_outer_intersep, inRegion]; omega⟩
                · exact ⟨ddnR_lower_outer_SOL a, by simp [ddnWired],
                    by simp only [ddnR_lower_outer_SOL, inRegion]; omega⟩
  · rintro ⟨p, hp, hP⟩
    simp only [ddnWired, List.mem_cons, List.not_mem_nil, or_false] at hp
    rcases hp with rfl|rfl|rfl|rfl|rfl|rfl|rfl|rfl|rfl|rfl|rfl|rfl|rfl|rfl|rfl|rfl|rfl|rfl <;>
      (simp only [ddnR_lower_inner_PFR, ddnR_lower_inner_intersep, ddnR_lower_inner_SOL, ddnR_inner_core, ddnR_inner_intersep, ddnR_inner_SOL, ddnR_upper_inner_PFR, ddnR_upper_inner_intersep, ddnR_upper_inner_SOL, ddnR_upper_outer_PFR, ddnR_upper_outer_intersep, ddnR_upper_outer_SOL, ddnR_outer_core, ddnR_outer_intersep, ddnR_outer_SOL, ddnR_lower_outer_PFR, ddnR_lower_outer_intersep, ddnR_lower_outer_SOL,
        inRegion] at hP; omega)
set_option maxHeartbeats 4000000 in
/-- Disjointness half of the partition property for the
disconnected-double-null table. -/
theorem ddn_disjoint (a : AdjustedParams) (h : OrderedParams a) :
    ∀ p ∈ buildDDN a, ∀ q ∈ buildDDN a,
      ∀ i j : Int, inRegion p.2 i j → inRegion q.2 i j → p = q := by
  rw [buildDDN_eq]
  obtain ⟨h1, h2, h3, h4, h5, h6, h7, h8, h9⟩ := h
  intro p hp q hq i j hc1 hc2
  simp only [ddnWired, List.mem_cons, List.not_mem_nil, or_false] at hp hq
  rcases hp with rfl|rfl|rfl|rfl|rfl|rfl|rfl|rfl|rfl|rfl|rfl|rfl|rfl|rfl|rfl|rfl|rfl|rfl <;>
    rcases hq with rfl|rfl|rfl|rfl|rfl|rfl|rfl|rfl|rfl|rfl|rfl|rfl|rfl|rfl|rfl|rfl|rfl|rfl <;>
    first
      | rfl
      | (exfalso
         simp only [ddnR_lower_inner_PFR, ddnR_lower_inner_intersep, ddnR_lower_inner_SOL, ddnR_inner_core, ddnR_inner_intersep, ddnR_inner_SOL, ddnR_upper_inner_PFR, ddnR_upper_inner_intersep, ddnR_upper_inner_SOL, ddnR_upper_outer_PFR, ddnR_upper_outer_intersep, ddnR_upper_outer_SOL, ddnR_outer_core, ddnR_outer_intersep, ddnR_outer_SOL, ddnR_lower_outer_PFR, ddnR_lower_outer_intersep, ddnR_lower_outer_SOL,
           inRegion] at hc1 hc2
         omega)
set_option maxHeartbeats 2000000 in
/-- Cover half of the partition property for the connected-double-null table. -/
theorem cdn_cover (a : AdjustedParams) (h : OrderedParams a) (hx : a.ixs1 = a.ixs2) :
    ∀ i j : Int, (0 ≤ i ∧ i < a.nx ∧ 0 ≤ j ∧ j < a.ny) ↔
      ∃ p ∈ buildCDN a, inRegion p.2 i j := by
  rw [buildCDN_eq]
  simp only [OrderedParams] at h
  intro i j
  simp only [cdnWired, List.mem_cons, List.not_mem_nil, or_false,
    exists_eq_or_imp, exists_eq_left, inRegion]
  omega

set_option maxHeartbeats 2000000 in
/-- Disjointness half of the partition property for the connected-double-null table. -/
theorem cdn_disjoint (a : AdjustedParams) (h : OrderedParams a) :
    ∀ p ∈ buildCDN a, ∀ q ∈ buildCDN a,
      ∀ i j : Int, inRegion p.2 i j → inRegion q.2 i j → p = q := by
  rw [buildCDN_eq]
  obtain ⟨h1, h2, h3, h4, h5, h6, h7, h8, h9⟩ := h
  intro p hp q hq i j hc1 hc2
  simp only [cdnWired, List.mem_cons, List.not_mem_nil, or_false] at hp hq
  rcases hp with rfl|rfl|rfl|rfl|rfl|rfl|rfl|rfl|rfl|rfl|rfl|rfl <;>
    rcases hq with rfl|rfl|rfl|rfl|rfl|rfl|rfl|rfl|rfl|rfl|rfl|rfl <;>
    first
      | rfl
      | (exfalso; simp only [inRegion] at hc1 hc2; omega)

set_option maxHeartbeats 2000000 in
/-- Cover half of the partition property for the single-null table. -/
theorem singlenull_cover (a : AdjustedParams) (h : OrderedParams a) (hx : a.ixs1 = a.ixs2) :
    ∀ i j : Int, (0 ≤ i ∧ i < a.nx ∧ 0 ≤ j ∧ j < a.ny) ↔
      ∃ p ∈ buildSingleNull a, inRegion p.2 i j := by
  rw [buildSingleNull_eq]
  simp only [OrderedParams] at h
  intro i j
  simp only [singleNullWired, List.mem_cons, List.not_mem_nil, or_false,
    exists_eq_or_imp, exists_eq_left, inRegion]
  omega

set_option maxHeartbeats 1000000 in
/-- Disjointness half of the partition property for the single-null table. -/
theorem singlenull_disjoint (a : AdjustedParams) (h : OrderedParams a) :
    ∀ p ∈ buildSingleNull a, ∀ q ∈ buildSingleNull a,
      ∀ i j : Int, inRegion p.2 i j → inRegion q.2 i j → p = q := by
  rw [buildSingleNull_eq]
  obtain ⟨h1, h2, h3, h4, h5, h6, h7, h8, h9⟩ := h
  intro p hp q hq i j hc1 hc2
  simp only [singleNullWired, List.mem_cons, List.not_mem_nil, or_false] at hp hq
  rcases hp with rfl|rfl|rfl|rfl|rfl|rfl <;>
    rcases hq with rfl|rfl|rfl|rfl|rfl|rfl <;>
    first
      | rfl
      | (exfalso; simp only [inRegion] at hc1 hc2; omega)

set_option maxHeartbeats 2000000 in
/-- Cover half of the partition property for the limiter table. -/
theorem limiter_cover (a : AdjustedParams) (h : OrderedParams a) :
    ∀ i j : Int, (0 ≤ i ∧ i < a.nx ∧ 0 ≤ j ∧ j < a.ny) ↔
      ∃ p ∈ buildLimiter a, inRegion p.2 i j := by
  rw [buildLimiter_eq]
  simp only [OrderedParams] at h
  intro i j
  simp only [limiterWired, List.mem_cons, List.not_mem_nil, or_false,
    exists_eq_or_imp, exists_eq_left, inRegion]
  omega

set_option maxHeartbeats 1000000 in
/-- Disjointness half of the partition property for the limiter table. -/
theorem limiter_disjoint (a : AdjustedParams) (h : OrderedParams a) :
    ∀ p ∈ buildLimiter a, ∀ q ∈ buildLimiter a,
      ∀ i j : Int, inRegion p.2 i j → inRegion q.2 i j → p = q := by
  rw [buildLimiter_eq]
  obtain ⟨h1, h2, h3, h4, h5, h6, h7, h8, h9⟩ := h
  intro p hp q hq i j hc1 hc2
  simp only [limiterWired, List.mem_cons, List.not_mem_nil, or_false] at hp hq
  rcases hp with rfl|rfl <;>
    rcases hq with rfl|rfl <;>
    first
      | rfl
      | (exfalso; simp only [inRegion] at hc1 hc2; omega)

set_option maxHeartbeats 2000000 in
/-- Cover half of the partition property for the core table. -/
theorem core_cover (a : AdjustedParams) (_h : OrderedParams a) :
    ∀ i j : Int, (0 ≤ i ∧ i < a.nx ∧ 0 ≤ j ∧ j < a.ny) ↔
      ∃ p ∈ buildCore a, inRegion p.2 i j := by
  rw [buildCore_eq]
  intro i j
  simp only [coreWired, List.mem_cons, List.not_mem_nil, or_false,
    exists_eq_or_imp, exists_eq_left, inRegion]

/-- Disjointness half of the partition property for the core table. -/
theorem core_disjoint (a : AdjustedParams) (_h : OrderedParams a) :
    ∀ p ∈ buildCore a, ∀ q ∈ buildCore a,
      ∀ i j : Int, inRegion p.2 i j → inRegion q.2 i j → p = q := by
  rw [buildCore_eq]
  intro p hp q hq i j hc1 hc2
  simp only [coreWired, List.mem_cons, List.not_mem_nil, or_false] at hp hq
  subst hp
  subst hq
  rfl

set_option maxHeartbeats 2000000 in
/-- Cover half of the partition property for the sol table. -/
theorem sol_cover (a : AdjustedParams) (_h : OrderedParams a) :
    ∀ i j : Int, (0 ≤ i ∧ i < a.nx ∧ 0 ≤ j ∧ j < a.ny) ↔
      ∃ p ∈ buildSol a, inRegion p.2 i j := by
  rw [buildSol_eq]
  intro i j
  simp only [solWired, List.mem_cons, List.not_mem_nil, or_false,
    exists_eq_or_imp, exists_eq_left, inRegion]

/-- Disjointness half of the partition property for the sol table. -/
theorem sol_disjoint (a : AdjustedParams) (_h : OrderedParams a) :
    ∀ p ∈ buildSol a, ∀ q ∈ buildSol a,
      ∀ i j : Int, inRegion p.2 i j → inRegion q.2 i j → p = q := by
  rw [buildSol_eq]
  intro p hp q hq i j hc1 hc2
  simp only [solWired, List.mem_cons, List.not_mem_nil, or_false] at hp hq
  subst hp
  subst hq
  rfl

set_option maxHeartbeats 2000000 in
/-- Cover half of the partition property for the xpoint table. -/
theorem xpoint_cover (a : AdjustedParams) (h : OrderedParams a) :
    ∀ i j : Int, (0 ≤ i ∧ i < a.nx ∧ 0 ≤ j ∧ j < a.ny) ↔
      ∃ p ∈ buildXpoint a, inRegion p.2 i j := by
  rw [buildXpoint_eq]
  simp only [OrderedParams] at h
  intro i j
  simp only [xpointWired, List.mem_cons, List.not_mem_nil, or_false,
    exists_eq_or_imp, exists_eq_left, inRegion]
  omega

set_option maxHeartbeats 1000000 in
/-- Disjointness half of the partition property for the xpoint table. -/
theorem xpoint_disjoint (a : AdjustedParams) (h : OrderedParams a) :
    ∀ p ∈ buildXpoint a, ∀ q ∈ buildXpoint a,
      ∀ i j : Int, inRegion p.2 i j → inRegion q.2 i j → p = q := by
  rw [buildXpoint_eq]
  obtain ⟨h1, h2, h3, h4, h5, h6, h7, h8, h9⟩ := h
  intro p hp q hq i j hc1 hc2
  simp only [xpointWired, List.mem_cons, List.not_mem_nil, or_false] at hp hq
  rcases hp with rfl|rfl|rfl|rfl|rfl|rfl|rfl|rfl <;>
    rcases hq with rfl|rfl|rfl|rfl|rfl|rfl|rfl|rfl <;>
    first
      | rfl
      | (exfalso; simp only [inRegion] at hc1 hc2; omega)


/-! ### The partition property (claim C2) -/

/-- The built regions tile the full adjusted domain exactly: every index pair
of `[0,nx) x [0,ny)` lies in some region's rectangle and in only one (and every
rectangle lies inside the domain). -/
def PartitionConcl (m : Metadata) (L : List (String × Region)) : Prop :=
  (∀ i j : Int,
      (0 ≤ i ∧ i < (boundsAdjust m).nx ∧ 0 ≤ j ∧ j < (boundsAdjust m).ny) ↔
        ∃ p ∈ L, inRegion p.2 i j) ∧
  (∀ p ∈ L, ∀ q ∈ L, ∀ i j : Int, inRegion p.2 i j → inRegion q.2 i j → p = q)

/-- The validity hypotheses under which the tables tile the domain: the
adjusted breakpoints form monotone chains, and for `single-null` the two
clamped separatrices coincide (the table's middle band uses `ixs1` for `core`
but `ixs2` for `SOL`). -/
def AdjustedOrdered (m : Metadata) : Prop :=
  OrderedParams (boundsAdjust m) ∧
  (_get_topology m = "single-null" →
    (boundsAdjust m).ixs1 = (boundsAdjust m).ixs2)

/-- The classifier returns `connected-double-null` only when the two raw
separatrices are equal. -/
theorem cdn_topology_sep_eq (m : Metadata)
    (h : _get_topology m = "connected-double-null") : m.ixseps1 = m.ixseps2 := by
  unfold _get_topology at h
  split_ifs at h <;> simp_all

/-- Equal raw separatrices stay equal through the preprocessing. -/
theorem boundsAdjust_sep_eq (m : Metadata) (hraw : m.ixseps1 = m.ixseps2) :
    (boundsAdjust m).ixs1 = (boundsAdjust m).ixs2 := by
  simp only [boundsAdjust, _order_vars, hraw, lt_self_iff_false, if_false]

/-- C2 (amended): for every metadata whose adjusted breakpoints are ordered
(`0 <= ixs1 <= ixs2 <= nx` and
`0 <= jys11+1 <= jys21+1 < nyinner+1 <= jys12+2` with
`jys12 <= jys22 < ny`), and whose clamped separatrices coincide in the
`single-null` case, the rectangles of the regions built by
`_create_regions_toroidal`, without guard-cell extension, partition the full
adjusted domain `[0,nx) x [0,ny)` exactly: no gaps and no overlaps. -/
theorem create_regions_partition (m : Metadata) (L : List (String × Region))
    (hL : _create_regions_toroidal m = some L) (hord : AdjustedOrdered m) :
    PartitionConcl m L := by
  obtain ⟨ho, hsn⟩ := hord
  rcases get_topology_cases m with h | h | h | h | h | h | h <;>
    simp only [_create_regions_toroidal, h, String.reduceEq, reduceIte,
      Option.some.injEq] at hL <;> subst hL
  · exact ⟨core_cover _ ho, core_disjoint _ ho⟩
  · exact ⟨sol_cover _ ho, sol_disjoint _ ho⟩
  · exact ⟨limiter_cover _ ho, limiter_disjoint _ ho⟩
  · exact ⟨singlenull_cover _ ho (hsn h), singlenull_disjoint _ ho⟩
  · exact ⟨xpoint_cover _ ho, xpoint_disjoint _ ho⟩
  · exact ⟨cdn_cover _ ho (boundsAdjust_sep_eq m (cdn_topology_sep_eq m h)),
      cdn_disjoint _ ho⟩
  · exact ⟨ddn_cover _ ho, ddn_disjoint _ ho⟩

/-- A well-formed disconnected-double-null metadata used as a witness. -/
def ddnExample : Metadata := Metadata.mk 6 12 5 2 4 1 3 7 9 0 0 true true

/-- C2 witness: the partition theorem applied to `ddnExample`. -/
theorem create_regions_partition_witness :
    AdjustedOrdered ddnExample ∧
      PartitionConcl ddnExample (buildDDN (boundsAdjust ddnExample)) :=
  ⟨by unfold AdjustedOrdered OrderedParams; decide,
   create_regions_partition ddnExample _ rfl
     (by unfold AdjustedOrdered OrderedParams; decide)⟩

/-- A single-null metadata with distinct separatrices (`ixseps1 = 2`,
`ixseps2 = 4`). -/
def singleNullGapExample : Metadata := Metadata.mk 6 4 3 2 4 1 2 2 2 0 0 true true

/-- C2 counterexample: on `singleNullGapExample` the claim fails - the index
pair `(3, 2)` lies in the full adjusted domain `[0,6) x [0,4)` but in no
region's rectangle (the middle y-band is covered by `core` up to `ixs1 = 2`
and by `SOL` from `ixs2 = 4`, leaving the column `[2,4)` uncovered), yet
`_create_regions_toroidal` builds this region set. -/
theorem partition_fails_on_single_null_gap :
    _get_topology singleNullGapExample = "single-null" ∧
    (_create_regions_toroidal singleNullGapExample).map
        (fun L => coveredBy L 3 2) = some false ∧
    (boundsAdjust singleNullGapExample).nx = 6 ∧
    (boundsAdjust singleNullGapExample).ny = 4 := by
  refine ⟨rfl, ?_, rfl, rfl⟩
  rfl

/-- A single-null metadata (separatrices 2 and 5 on a domain of radial width 8)
whose region set misses the column `[2,5)` of the middle y-band. -/
def solGapExample : Metadata := Metadata.mk 8 4 3 2 5 1 2 2 2 0 0 true true

/-- C8 counterexample: the claim says construction fails with
`InvalidMeshGeometry` whenever the partition invariant is violated; on
`solGapExample` the partition is violated (the in-domain pair `(3, 2)` is
covered by no region) and yet `_create_regions_toroidal` succeeds and returns
a region set. -/
theorem build_succeeds_on_partition_violating_metadata :
    (_create_regions_toroidal solGapExample).isSome = true ∧
    (_create_regions_toroidal solGapExample).map
        (fun L => coveredBy L 3 2) = some false ∧
    (boundsAdjust solGapExample).nx = 8 ∧
    (boundsAdjust solGapExample).ny = 4 := by
  refine ⟨rfl, ?_, rfl, rfl⟩
  rfl

/-! ### Seam coordinates of connected regions (claim C3) -/

set_option maxHeartbeats 4000000 in
/-- Every x-connected pair of the disconnected-double-null table shares its
seam coordinate. -/
theorem ddn_xseams (a : AdjustedParams) :
    ∀ p ∈ buildDDN a, ∀ q ∈ buildDDN a,
      p.2.connection_outer = some q.1 → p.2.xouter_ind = q.2.xinner_ind := by
  rw [buildDDN_eq]
  intro p hp q hq hco
  simp only [ddnWired, List.mem_cons, List.not_mem_nil, or_false] at hp hq
  rcases hp with rfl|rfl|rfl|rfl|rfl|rfl|rfl|rfl|rfl|rfl|rfl|rfl|rfl|rfl|rfl|rfl|rfl|rfl <;>
    rcases hq with rfl|rfl|rfl|rfl|rfl|rfl|rfl|rfl|rfl|rfl|rfl|rfl|rfl|rfl|rfl|rfl|rfl|rfl <;>
    simp_all [ddnR_lower_inner_PFR, ddnR_lower_inner_intersep, ddnR_lower_inner_SOL,
      ddnR_inner_core, ddnR_inner_intersep, ddnR_inner_SOL,
      ddnR_upper_inner_PFR, ddnR_upper_inner_intersep, ddnR_upper_inner_SOL,
      ddnR_upper_outer_PFR, ddnR_upper_outer_intersep, ddnR_upper_outer_SOL,
      ddnR_outer_core, ddnR_outer_intersep, ddnR_outer_SOL,
      ddnR_lower_outer_PFR, ddnR_lower_outer_intersep, ddnR_lower_outer_SOL]

set_option maxHeartbeats 2000000 in
/-- Every x-connected pair of the connected-double-null table shares its seam
coordinate, the separatrices being equal for this topology. -/
theorem cdn_xseams (a : AdjustedParams) (hx : a.ixs1 = a.ixs2) :
    ∀ p ∈ buildCDN a, ∀ q ∈ buildCDN a,
      p.2.connection_outer = some q.1 → p.2.xouter_ind = q.2.xinner_ind := by
  rw [buildCDN_eq]
  intro p hp q hq hco
  simp only [cdnWired, List.mem_cons, List.not_mem_nil, or_false] at hp hq
  rcases hp with rfl|rfl|rfl|rfl|rfl|rfl|rfl|rfl|rfl|rfl|rfl|rfl <;>
    rcases hq with rfl|rfl|rfl|rfl|rfl|rfl|rfl|rfl|rfl|rfl|rfl|rfl <;>
    simp_all

set_option maxHeartbeats 2000000 in
/-- In the single-null table every x-connected pair shares its seam coordinate
except the `core` -> `SOL` link, whose two sides sit at the two distinct
clamped separatrices. -/
theorem singleNull_xseams (a : AdjustedParams) :
    ∀ p ∈ buildSingleNull a, ∀ q ∈ buildSingleNull a,
      p.2.connection_outer = some q.1 →
        p.2.xouter_ind = q.2.xinner_ind ∨ (p.1 = "core" ∧ q.1 = "SOL") := by
  rw [buildSingleNull_eq]
  intro p hp q hq hco
  simp only [singleNullWired, List.mem_cons, List.not_mem_nil, or_false] at hp hq
  rcases hp with rfl|rfl|rfl|rfl|rfl|rfl <;>
    rcases hq with rfl|rfl|rfl|rfl|rfl|rfl <;>
    simp_all

/-- Every x-connected pair of the limiter table shares its seam coordinate. -/
theorem limiter_xseams (a : AdjustedParams) :
    ∀ p ∈ buildLimiter a, ∀ q ∈ buildLimiter a,
      p.2.connection_outer = some q.1 → p.2.xouter_ind = q.2.xinner_ind := by
  rw [buildLimiter_eq]
  intro p hp q hq hco
  simp only [limiterWired, List.mem_cons, List.not_mem_nil, or_false] at hp hq
  rcases hp with rfl|rfl <;> rcases hq with rfl|rfl <;> simp_all

/-- The core table has no x-connections. -/
theorem core_xseams (a : AdjustedParams) :
    ∀ p ∈ buildCore a, ∀ q ∈ buildCore a,
      p.2.connection_outer = some q.1 → p.2.xouter_ind = q.2.xinner_ind := by
  rw [buildCore_eq]
  intro p hp q hq hco
  simp only [coreWired, List.mem_cons, List.not_mem_nil, or_false] at hp hq
  subst hp
  simp at hco

/-- The sol table has no x-connections. -/
theorem sol_xseams (a : AdjustedParams) :
    ∀ p ∈ buildSol a, ∀ q ∈ buildSol a,
      p.2.connection_outer = some q.1 → p.2.xouter_ind = q.2.xinner_ind := by
  rw [buildSol_eq]
  intro p hp q hq hco
  simp only [solWired, List.mem_cons, List.not_mem_nil, or_false] at hp hq
  subst hp
  simp at hco

set_option maxHeartbeats 2000000 in
/-- Every x-connected pair of the xpoint table shares its seam coordinate. -/
theorem xpoint_xseams (a : AdjustedParams) :
    ∀ p ∈ buildXpoint a, ∀ q ∈ buildXpoint a,
      p.2.connection_outer = some q.1 → p.2.xouter_ind = q.2.xinner_ind := by
  rw [buildXpoint_eq]
  intro p hp q hq hco
  simp only [xpointWired, List.mem_cons, List.not_mem_nil, or_false] at hp hq
  rcases hp with rfl|rfl|rfl|rfl|rfl|rfl|rfl|rfl <;>
    rcases hq with rfl|rfl|rfl|rfl|rfl|rfl|rfl|rfl <;>
    simp_all

/-- C3 (amended): in the region set built by `_create_regions_toroidal`, every
x-connected pair `A.connection_outer = B` satisfies
`A.xouter_ind = B.xinner_ind`, with the single exception of the single-null
`core` -> `SOL` link (whose sides sit at the two clamped separatrices and agree
only when those coincide).  The y-analogue claimed for
`A.connection_upper = B` does not hold: y-connections wrap poloidal branch
cuts, so `A.yupper_ind` and `B.ylower_ind` are in general different. -/
theorem create_regions_x_seams_match (m : Metadata) (L : List (String × Region))
    (hL : _create_regions_toroidal m = some L) :
    ∀ p ∈ L, ∀ q ∈ L, p.2.connection_outer = some q.1 →
      p.2.xouter_ind = q.2.xinner_ind ∨
        (_get_topology m = "single-null" ∧ p.1 = "core" ∧ q.1 = "SOL") := by
  rcases get_topology_cases m with h | h | h | h | h | h | h <;>
    simp only [_create_regions_toroidal, h, String.reduceEq, reduceIte,
      Option.some.injEq] at hL <;> subst hL
  · exact fun p hp q hq hco => Or.inl (core_xseams _ p hp q hq hco)
  · exact fun p hp q hq hco => Or.inl (sol_xseams _ p hp q hq hco)
  · exact fun p hp q hq hco => Or.inl (limiter_xseams _ p hp q hq hco)
  · intro p hp q hq hco
    rcases singleNull_xseams _ p hp q hq hco with h1 | h1
    · exact Or.inl h1
    · exact Or.inr ⟨h, h1⟩
  · exact fun p hp q hq hco => Or.inl (xpoint_xseams _ p hp q hq hco)
  · exact fun p hp q hq hco =>
      Or.inl (cdn_xseams _ (boundsAdjust_sep_eq m (cdn_topology_sep_eq m h)) p hp q hq hco)
  · exact fun p hp q hq hco => Or.inl (ddn_xseams _ p hp q hq hco)

/-- C3 witness: the x-seam theorem applied to `ddnExample`. -/
theorem create_regions_x_seams_match_witness :
    _get_topology ddnExample = "disconnected-double-null" ∧
    (∀ p ∈ buildDDN (boundsAdjust ddnExample),
      ∀ q ∈ buildDDN (boundsAdjust ddnExample),
        p.2.connection_outer = some q.1 →
          p.2.xouter_ind = q.2.xinner_ind ∨
            (_get_topology ddnExample = "single-null" ∧
              p.1 = "core" ∧ q.1 = "SOL")) :=
  ⟨rfl, create_regions_x_seams_match ddnExample _ rfl⟩

/-- The §8 core-only scenario metadata (`nx = 4`, `ny = 8`, separatrices
clamped at `nx`). -/
def coreExample : Metadata := Metadata.mk 4 8 4 10 10 (-1) 3 3 7 0 0 true true

/-- C3 counterexample: the claim's y-seam condition fails - in the core
topology, the single `core` region is y-connected to itself
(`connection_upper = 'core'`), yet its `yupper_ind = 8` differs from its own
`ylower_ind = 0`: the poloidal wrap connects the two opposite edges of the
same rectangle. -/
theorem y_seam_claim_fails_on_core_wrap :
    _get_topology coreExample = "core" ∧
    _create_regions_toroidal coreExample = some
      [("core",
        { name := "core", xinner_ind := 0, xouter_ind := 4,
          ylower_ind := 0, yupper_ind := 8,
          connection_inner := none, connection_outer := none,
          connection_lower := some "core", connection_upper := some "core" })] ∧
    ((8 : Int) = 0) = False := by
  refine ⟨rfl, rfl, by simp⟩

/-! ### Symmetry of connection references (claim C4) -/

/-- For projections `f`, `g` of opposite connection directions: every region
whose `f`-field names a key `k` has a partner stored under key `k` whose
`g`-field names it back. -/
def symCheckBy (f g : Region → Option String) (L : List (String × Region)) : Bool :=
  L.all fun p =>
    (f p.2).all fun k =>
      (L.find? fun q => q.1 == k).any fun q => g q.2 == some p.1

theorem symCheckBy_sound (f g : Region → Option String)
    (L : List (String × Region)) (h : symCheckBy f g L = true) :
    ∀ p ∈ L, ∀ k, f p.2 = some k →
      ∃ q ∈ L, q.1 = k ∧ g q.2 = some p.1 := by
  intro p hp k hk
  have h1 := List.all_eq_true.mp h p hp
  rw [hk, Option.all_some] at h1
  rcases hfind : L.find? (fun q => q.1 == k) with _ | q
  · rw [hfind, Option.any_none] at h1
    exact absurd h1 (by simp)
  · rw [hfind, Option.any_some] at h1
    refine ⟨q, List.mem_of_find?_eq_some hfind, ?_, ?_⟩
    · have hkey := List.find?_some hfind
      simpa using hkey
    · simpa using h1

/-- All four connection directions pass `symCheckBy`. -/
def connCheck (L : List (String × Region)) : Bool :=
  symCheckBy (fun r => r.connection_outer) (fun r => r.connection_inner) L &&
  symCheckBy (fun r => r.connection_inner) (fun r => r.connection_outer) L &&
  symCheckBy (fun r => r.connection_upper) (fun r => r.connection_lower) L &&
  symCheckBy (fun r => r.connection_lower) (fun r => r.connection_upper) L

/-- Key-level symmetry of the connection graph: every connection reference
resolves to a stored key whose region points back, in all four directions. -/
def ConnectionsKeySymmetric (L : List (String × Region)) : Prop :=
  ∀ p ∈ L,
    (∀ k, p.2.connection_outer = some k →
      ∃ q ∈ L, q.1 = k ∧ q.2.connection_inner = some p.1) ∧
    (∀ k, p.2.connection_inner = some k →
      ∃ q ∈ L, q.1 = k ∧ q.2.connection_outer = some p.1) ∧
    (∀ k, p.2.connection_upper = some k →
      ∃ q ∈ L, q.1 = k ∧ q.2.connection_lower = some p.1) ∧
    (∀ k, p.2.connection_lower = some k →
      ∃ q ∈ L, q.1 = k ∧ q.2.connection_upper = some p.1)

theorem connCheck_sound (L : List (String × Region)) (h : connCheck L = true) :
    ConnectionsKeySymmetric L := by
  simp only [connCheck, Bool.and_eq_true] at h
  obtain ⟨⟨⟨h1, h2⟩, h3⟩, h4⟩ := h
  intro p hp
  exact ⟨fun k hk => symCheckBy_sound _ _ L h1 p hp k hk,
    fun k hk => symCheckBy_sound _ _ L h2 p hp k hk,
    fun k hk => symCheckBy_sound _ _ L h3 p hp k hk,
    fun k hk => symCheckBy_sound _ _ L h4 p hp k hk⟩

theorem connCheck_ddn (a : AdjustedParams) : connCheck (buildDDN a) = true := by
  rw [buildDDN_eq]
  rfl

theorem connCheck_cdn (a : AdjustedParams) : connCheck (buildCDN a) = true := by
  rw [buildCDN_eq]
  rfl

theorem connCheck_singleNull (a : AdjustedParams) :
    connCheck (buildSingleNull a) = true := by
  rw [buildSingleNull_eq]
  rfl

theorem connCheck_limiter (a : AdjustedParams) : connCheck (buildLimiter a) = true := by
  rw [buildLimiter_eq]
  rfl

theorem connCheck_core (a : AdjustedParams) : connCheck (buildCore a) = true := by
  rw [buildCore_eq]
  rfl

theorem connCheck_sol (a : AdjustedParams) : connCheck (buildSol a) = true := by
  rw [buildSol_eq]
  rfl

theorem connCheck_xpoint (a : AdjustedParams) : connCheck (buildXpoint a) = true := by
  rw [buildXpoint_eq]
  rfl

/-- C4 (amended): in every region set built by `_create_regions_toroidal` the
connection references are symmetric *by dictionary key*: whenever a region's
`connection_outer` holds key `k`, a region is stored under key `k` and its
`connection_inner` holds the first region's key - likewise for the other three
directions - so no reference dangles as a key.  The claim's *by-name* version
fails for the two aliased single-null entries (see the counterexample). -/
theorem create_regions_connections_symmetric (m : Metadata)
    (L : List (String × Region)) (hL : _create_regions_toroidal m = some L) :
    ConnectionsKeySymmetric L := by
  rcases get_topology_cases m with h | h | h | h | h | h | h <;>
    simp only [_create_regions_toroidal, h, String.reduceEq, reduceIte,
      Option.some.injEq] at hL <;> subst hL
  · exact connCheck_sound _ (connCheck_core _)
  · exact connCheck_sound _ (connCheck_sol _)
  · exact connCheck_sound _ (connCheck_limiter _)
  · exact connCheck_sound _ (connCheck_singleNull _)
  · exact connCheck_sound _ (connCheck_xpoint _)
  · exact connCheck_sound _ (connCheck_cdn _)
  · exact connCheck_sound _ (connCheck_ddn _)

/-- A single-null metadata with coinciding separatrices. -/
def singleNullSymExample : Metadata := Metadata.mk 6 4 3 2 2 1 2 2 2 0 0 true true

/-- C4 witness: key-level connection symmetry on the single-null example. -/
theorem create_regions_connections_symmetric_witness :
    ConnectionsKeySymmetric (buildSingleNull (boundsAdjust singleNullSymExample)) :=
  create_regions_connections_symmetric singleNullSymExample _ rfl

/-- C4 counterexample: symmetry *by region name* fails in the single-null
table.  The region stored under key `outer_SOL` is named `lower_SOL` and has
`connection_lower = 'SOL'`, the *name* of the `SOL` region; but the `SOL`
region's `connection_upper` is `'outer_SOL'`, which differs from `'lower_SOL'`
and is no region's name at all (a dangling reference by name): the claim's
converse direction and its no-dangling conclusion are both false here. -/
theorem connection_symmetry_by_name_fails :
    ((_create_regions_toroidal singleNullSymExample).bind fun L =>
        (L.find? fun q => q.1 == "outer_SOL").map fun p =>
          (p.2.name, p.2.connection_lower)) = some ("lower_SOL", some "SOL") ∧
    ((_create_regions_toroidal singleNullSymExample).bind fun L =>
        (L.find? fun q => q.1 == "SOL").map fun p =>
          (p.2.name, p.2.connection_upper)) = some ("SOL", some "outer_SOL") ∧
    ((_create_regions_toroidal singleNullSymExample).map fun L =>
        L.all fun q => !(q.2.name == "outer_SOL")) = some true ∧
    (("outer_SOL" : String) = "lower_SOL") = False := by
  refine ⟨rfl, rfl, rfl, by simp⟩

/-! ### The xpoint table (claim C7) -/

/-- The key, name and four connection references of each entry (the bounds
dropped). -/
def regionShape (L : List (String × Region)) :
    List (String × String × Option String × Option String ×
      Option String × Option String) :=
  L.map fun p =>
    (p.1, p.2.name, p.2.connection_inner, p.2.connection_outer,
      p.2.connection_lower, p.2.connection_upper)

/-- C7 (amended): for every metadata classified `xpoint` the built region set
has exactly **8** regions (not 6): `{lower,upper} x {inner,outer} x {PFR,SOL}`,
with no core region; each leg is y-chained lower-to-upper
(`lower_inner_SOL <-> upper_inner_SOL`, `upper_outer_SOL <-> lower_outer_SOL`,
and the PFR wrap `lower_inner_PFR <-> lower_outer_PFR`,
`upper_outer_PFR <-> upper_inner_PFR`), and no region is self-connected in
y. -/
theorem xpoint_regions_shape (m : Metadata) (L : List (String × Region))
    (h : _get_topology m = "xpoint") (hL : _create_regions_toroidal m = some L) :
    L.length = 8 ∧
    regionShape L =
      [("lower_inner_PFR", "lower_inner_PFR",
          none, some "lower_inner_SOL", none, some "lower_outer_PFR"),
       ("lower_inner_SOL", "lower_inner_SOL",
          some "lower_inner_PFR", none, none, some "upper_inner_SOL"),
       ("upper_inner_PFR", "upper_inner_PFR",
          none, some "upper_inner_SOL", some "upper_outer_PFR", none),
       ("upper_inner_SOL", "upper_inner_SOL",
          some "upper_inner_PFR", none, some "lower_inner_SOL", none),
       ("upper_outer_PFR", "upper_outer_PFR",
          none, some "upper_outer_SOL", none, some "upper_inner_PFR"),
       ("upper_outer_SOL", "upper_outer_SOL",
          some "upper_outer_PFR", none, none, some "lower_outer_SOL"),
       ("lower_outer_PFR", "lower_outer_PFR",
          none, some "lower_outer_SOL", some "lower_inner_PFR", none),
       ("lower_outer_SOL", "lower_outer_SOL",
          some "lower_outer_PFR", none, some "upper_outer_SOL", none)] ∧
    (∀ p ∈ L, p.2.connection_upper ≠ some p.1 ∧ p.2.connection_lower ≠ some p.1) := by
  simp only [_create_regions_toroidal, h, String.reduceEq, reduceIte,
    Option.some.injEq] at hL
  subst hL
  rw [buildXpoint_eq]
  refine ⟨rfl, rfl, ?_⟩
  intro p hp
  simp only [xpointWired, List.mem_cons, List.not_mem_nil, or_false] at hp
  rcases hp with rfl|rfl|rfl|rfl|rfl|rfl|rfl|rfl <;> simp_all

/-- A concrete metadata classified `xpoint`. -/
def xpointExample : Metadata := Metadata.mk 6 8 4 2 2 1 1 5 5 0 0 true true

/-- C7 counterexample: on `xpointExample` the topology is `xpoint` and the
built region set has 8 regions, not the 6 the claim states. -/
theorem xpoint_has_eight_regions :
    _get_topology xpointExample = "xpoint" ∧
    (_create_regions_toroidal xpointExample).map List.length = some 8 ∧
    (8 : Nat) ≠ 6 := by
  refine ⟨rfl, rfl, by decide⟩

/-- C7 witness: the shape theorem applied to `xpointExample`. -/
theorem xpoint_regions_shape_witness :
    (buildXpoint (boundsAdjust xpointExample)).length = 8 ∧
    regionShape (buildXpoint (boundsAdjust xpointExample)) =
      [("lower_inner_PFR", "lower_inner_PFR",
          none, some "lower_inner_SOL", none, some "lower_outer_PFR"),
       ("lower_inner_SOL", "lower_inner_SOL",
          some "lower_inner_PFR", none, none, some "upper_inner_SOL"),
       ("upper_inner_PFR", "upper_inner_PFR",
          none, some "upper_inner_SOL", some "upper_outer_PFR", none),
       ("upper_inner_SOL", "upper_inner_SOL",
          some "upper_inner_PFR", none, some "lower_inner_SOL", none),
       ("upper_outer_PFR", "upper_outer_PFR",
          none, some "upper_outer_SOL", none, some "upper_inner_PFR"),
       ("upper_outer_SOL", "upper_outer_SOL",
          some "upper_outer_PFR", none, none, some "lower_outer_SOL"),
       ("lower_outer_PFR", "lower_outer_PFR",
          none, some "lower_outer_SOL", some "lower_inner_PFR", none),
       ("lower_outer_SOL", "lower_outer_SOL",
          some "lower_outer_PFR", none, some "upper_outer_SOL", none)] ∧
    (∀ p ∈ buildXpoint (boundsAdjust xpointExample),
      p.2.connection_upper ≠ some p.1 ∧ p.2.connection_lower ≠ some p.1) :=
  xpoint_regions_shape xpointExample _ rfl rfl

/-! ### Dictionary keys versus region names (claim C10) -/

theorem keyNameAll_of_check (L : List (String × Region))
    (h : (L.all fun p => p.1 == p.2.name) = true) :
    ∀ p ∈ L, p.1 = p.2.name := fun p hp => by
  simpa using List.all_eq_true.mp h p hp

/-- C10: in every built region set the storage key equals the region's `name`
attribute, except exactly the two single-null entries stored under keys
`outer_PFR` and `outer_SOL`, whose regions are named `lower_PFR` and
`lower_SOL`; in the single-null set both aliased entries are indeed present. -/
theorem region_keys_match_names (m : Metadata) (L : List (String × Region))
    (hL : _create_regions_toroidal m = some L) :
    (∀ p ∈ L, p.1 = p.2.name ↔
      ¬(_get_topology m = "single-null" ∧
        (p.1 = "outer_PFR" ∨ p.1 = "outer_SOL"))) ∧
    (_get_topology m = "single-null" →
      (∃ p ∈ L, p.1 = "outer_PFR" ∧ p.2.name = "lower_PFR") ∧
      (∃ p ∈ L, p.1 = "outer_SOL" ∧ p.2.name = "lower_SOL")) := by
  rcases get_topology_cases m with h | h | h | h | h | h | h <;>
    simp only [_create_regions_toroidal, h, String.reduceEq, reduceIte,
      Option.some.injEq] at hL <;> subst hL
  · exact ⟨fun p hp => by
      simp [h, keyNameAll_of_check _ (by rw [buildCore_eq]; rfl) p hp],
      fun hsn => by rw [h] at hsn; exact absurd hsn (by decide)⟩
  · exact ⟨fun p hp => by
      simp [h, keyNameAll_of_check _ (by rw [buildSol_eq]; rfl) p hp],
      fun hsn => by rw [h] at hsn; exact absurd hsn (by decide)⟩
  · exact ⟨fun p hp => by
      simp [h, keyNameAll_of_check _ (by rw [buildLimiter_eq]; rfl) p hp],
      fun hsn => by rw [h] at hsn; exact absurd hsn (by decide)⟩
  · constructor
    · intro p hp
      rw [buildSingleNull_eq] at hp
      simp only [singleNullWired, List.mem_cons, List.not_mem_nil, or_false] at hp
      rcases hp with rfl|rfl|rfl|rfl|rfl|rfl <;> simp_all
    · intro _
      rw [buildSingleNull_eq]
      constructor
      · exact ⟨("outer_PFR",
          { name := "lower_PFR", xinner_ind := 0,
            xouter_ind := (boundsAdjust m).ixs1,
            ylower_ind := (boundsAdjust m).jys22 + 1,
            yupper_ind := (boundsAdjust m).ny,
            connection_inner := none, connection_outer := some "outer_SOL",
            connection_lower := some "inner_PFR", connection_upper := none }),
          by simp [singleNullWired], rfl, rfl⟩
      · exact ⟨("outer_SOL",
          { name := "lower_SOL", xinner_ind := (boundsAdjust m).ixs1,
            xouter_ind := (boundsAdjust m).nx,
            ylower_ind := (boundsAdjust m).jys22 + 1,
            yupper_ind := (boundsAdjust m).ny,
            connection_inner := some "outer_PFR", connection_outer := none,
            connection_lower := some "SOL", connection_upper := none }),
          by simp [singleNullWired], rfl, rfl⟩
  · exact ⟨fun p hp => by
      simp [h, keyNameAll_of_check _ (by rw [buildXpoint_eq]; rfl) p hp],
      fun hsn => by rw [h] at hsn; exact absurd hsn (by decide)⟩
  · exact ⟨fun p hp => by
      simp [h, keyNameAll_of_check _ (by rw [buildCDN_eq]; rfl) p hp],
      fun hsn => by rw [h] at hsn; exact absurd hsn (by decide)⟩
  · exact ⟨fun p hp => by
      simp [h, keyNameAll_of_check _ (by rw [buildDDN_eq]; rfl) p hp],
      fun hsn => by rw [h] at hsn; exact absurd hsn (by decide)⟩

/-- C10 witness: the key/name theorem applied to the single-null example
(the topology with the two aliased entries) with its conclusion instantiated. -/
theorem region_keys_match_names_witness :
    (∀ p ∈ buildSingleNull (boundsAdjust singleNullSymExample),
      p.1 = p.2.name ↔
        ¬(_get_topology singleNullSymExample = "single-null" ∧
          (p.1 = "outer_PFR" ∨ p.1 = "outer_SOL"))) ∧
    (_get_topology singleNullSymExample = "single-null" →
      (∃ p ∈ buildSingleNull (boundsAdjust singleNullSymExample),
        p.1 = "outer_PFR" ∧ p.2.name = "lower_PFR") ∧
      (∃ p ∈ buildSingleNull (boundsAdjust singleNullSymExample),
        p.1 = "outer_SOL" ∧ p.2.name = "lower_SOL")) :=
  region_keys_match_names singleNullSymExample _ rfl
